import Mathlib

/-!
Verification of the json-gui-addon-kit display-slave firmware.

This file is a shallow embedding of the C sources of the repository
(src/common/cobs.c, src/unnamed/part_014 = ui_runtime.c,
src/unnamed/part_015 = ui_protocol.c, src/unnamed/part_013 = ui_tree.c,
src/src/slave/ui_focus.c, src/src/slave/ui_numeric.c,
src/src/slave/ssd1306_driver.c and the headers in src/include) together
with theorems about the embedded definitions.

Conventions of the embedding:
- machine bytes (uint8_t) are modelled as Nat, with an explicit `% 256`
  wherever the C code can overflow;
- int / int16_t values are modelled as Int with explicit clamping where
  the C code clamps;
- buffers are Lists; a C function writing through a pointer becomes a
  function returning the updated state;
- a C function returning NULL / 0 on failure returns Option / a result
  code from the Res type below.
-/

namespace JsonGui

/-- Internal result codes (status_codes.h, mapped 1:1 to wire RC codes by
`protocol_map_result_to_rc`).  `respSent` models the PROTOCOL_RESP_SENT
sentinel (0x7F). -/
inductive Res where
  | ok
  | badLen
  | badState
  | unknownId
  | range
  | internal
  | noSpace
  | parseFail
  | respSent
deriving DecidableEq, Repr

/-- protocol_map_result_to_rc from ui_protocol.c: map internal result codes
to wire RC bytes. -/
def protocol_map_result_to_rc : Res → Nat
  | .ok => 0x00
  | .respSent => 0x00
  | .badLen => 0x01
  | .badState => 0x02
  | .unknownId => 0x03
  | .range => 0x04
  | .internal => 0x05
  | .noSpace => 0x0C
  | .parseFail => 0x0B

/-! ## COBS (src/common/cobs.c)

The encoder loop consumes exactly one input byte per iteration, so it is
rendered as structural recursion on the remaining input.  The output
buffer `out` is the list of bytes written so far (its length equals the
C variable write_index); `ci` is code_index and `code` the running block
code.  The placeholder writes out[code_index] = 0 followed by the later
patch out[code_index] = code are rendered with List.set. -/

def cobsEncodeLoop : List Nat → List Nat → Nat → Nat → Nat → Option (List Nat)
  | [], out, ci, code, _omax =>
      -- while loop ended: out[code_index] = code; return write_index bytes
      some (out.set ci code)
  | b :: rest, out, ci, code, omax =>
      if b = 0 then
        -- write code, start a new block with a fresh placeholder byte
        let out1 := (out.set ci code) ++ [0]
        if out1.length > omax then none
        else cobsEncodeLoop rest out1 (out1.length - 1) 1 omax
      else
        if out.length ≥ omax then none
        else
          let out1 := out ++ [b]
          if code + 1 = 0xFF then
            -- block full: patch 0xFF and open a new block
            let out2 := (out1.set ci 0xFF) ++ [0]
            if out2.length > omax then none
            else cobsEncodeLoop rest out2 (out2.length - 1) 1 omax
          else cobsEncodeLoop rest out1 ci (code + 1) omax

/-- cobs_encode: returns the written bytes (length = the C return value),
or none where the C code returns 0 (error). -/
def cobs_encode (inp : List Nat) (omax : Nat) : Option (List Nat) :=
  if omax = 0 then none
  else cobsEncodeLoop inp [0] 0 1 omax

/-- Inner copy loop of cobs_decode: copy `n` (= code-1) bytes from the
input to the output, checking read and write bounds per byte. -/
def cobsDecodeCopy : Nat → List Nat → List Nat → Nat → Option (List Nat × List Nat)
  | 0, inp, out, _omax => some (out, inp)
  | _n + 1, [], _out, _omax => none      -- truncated input
  | n + 1, b :: rest, out, omax =>
      if out.length ≥ omax then none
      else cobsDecodeCopy n rest (out ++ [b]) omax

/-- cobs_decode main loop.  Each iteration consumes at least the code
byte, so `fuel = inp.length` iterations always suffice; the fuel-0 case
with input left is unreachable from cobs_decode. -/
def cobsDecodeLoop : Nat → List Nat → List Nat → Nat → Option (List Nat)
  | _, [], out, _omax => some out
  | 0, _ :: _, _out, _omax => none
  | fuel + 1, c :: rest, out, omax =>
      if c = 0 then none
      else
        match cobsDecodeCopy (c - 1) rest out omax with
        | none => none
        | some (out1, rest1) =>
            if rest1 ≠ [] ∧ c ≠ 0xFF then
              if out1.length ≥ omax then none
              else cobsDecodeLoop fuel rest1 (out1 ++ [0]) omax
            else cobsDecodeLoop fuel rest1 out1 omax

/-- cobs_decode: returns the decoded bytes; none where the C code
returns 0 through an error path (a genuinely empty decode also returns
0 in C, which callers treat identically to an error). -/
def cobs_decode (inp : List Nat) (omax : Nat) : Option (List Nat) :=
  cobsDecodeLoop inp.length inp [] omax

/-! ## Constants (ui_runtime.h, ui_protocol.h, element_types.h,
ssd1306_driver.h) -/

def UI_ATTR_ARENA_CAP : Nat := 768
def INVALID_ELEMENT_ID : Nat := 0xFF
def NAV_STACK_MAX_DEPTH : Nat := 4
def UI_ATTR_TAG_TEXT : Nat := 0x10
def UI_ATTR_TAG_SCREEN_ROLE : Nat := 0x11
def SSD1306_WIDTH : Nat := 128
/-- Display height at boot (runtime-configurable to 32 or 64; the model
uses the boot default, matching a fresh slave). -/
def SSD1306_HEIGHT : Nat := 32
def SSD1306_PAGE_HEIGHT : Nat := 8
def SPI_BUFFER_SIZE : Nat := 64
def SPI_RESP_SYNC0 : Nat := 0xA5
def SPI_RESP_SYNC1 : Nat := 0x5A
def SPI_TX_QUEUE_SIZE : Nat := 64

def ELEMENT_TEXT : Nat := 0
def ELEMENT_NUMBER_EDIT : Nat := 8
def ELEMENT_LIST_VIEW : Nat := 9
def ELEMENT_SCREEN : Nat := 10
def ELEMENT_BARREL : Nat := 12
def ELEMENT_TRIGGER : Nat := 14

def OVERLAY_NONE : Nat := 0
def OVERLAY_FULL : Nat := 1

def NAV_CTX_LIST : Nat := 0
def NAV_CTX_LOCAL_SCREEN : Nat := 1

def UI_BUTTON_UP : Nat := 0
def UI_BUTTON_DOWN : Nat := 1
def UI_BUTTON_OK : Nat := 2
def UI_BUTTON_BACK : Nat := 3
def UI_BUTTON_LEFT : Nat := 4
def UI_BUTTON_RIGHT : Nat := 5
def UI_BUTTON_COUNT : Nat := 6

def SPI_CMD_PING : Nat := 0x00
def SPI_CMD_JSON : Nat := 0x01
def SPI_CMD_JSON_ABORT : Nat := 0x03
def SPI_CMD_SET_ACTIVE_SCREEN : Nat := 0x10
def SPI_CMD_GET_STATUS : Nat := 0x20
def SPI_CMD_SCROLL_TO_SCREEN : Nat := 0x21
def SPI_CMD_GET_ELEMENT_STATE : Nat := 0x22
def SPI_CMD_SHOW_OVERLAY : Nat := 0x30
def SPI_CMD_INPUT_EVENT : Nat := 0x41
def SPI_CMD_GOTO_STANDBY : Nat := 0x50

def RC_OK : Nat := 0x00
def STATUS_FLAG_INITIALIZED : Nat := 0x01
def STATUS_FLAG_DIRTY : Nat := 0x02
def STATUS_FLAG_OVERLAY : Nat := 0x04
def JSON_FLAG_HEAD : Nat := 0x01
def JSON_FLAG_COMMIT : Nat := 0x02
def SCREEN_ANIM_PIXELS_PER_FRAME : Int := 8

/-! ## Data model (ui_runtime.h / ui_protocol.h structs)

The arena head's attribute region is modelled as the list of appended
attribute entries; each constructor carries the same fields as the byte
layout {tag, element_id, [len], payload}, and `attrEntrySize` is the
byte size the entry occupies (matching ui_attr_skip_entry).  head_used
and used_tail are tracked explicitly exactly as in the C struct.
The three tail-allocated node lists are modelled as lists with the most
recently pushed node first (the C code pushes new nodes at the list
head); node byte sizes on the 32-bit target are
sizeof(ur_list_node_t) = 12, sizeof(ur_barrel_node_t) = 6,
sizeof(ur_trigger_node_t) = 4.  Freshly appended arena bytes are zero
(the whole protocol state including the arena is memset to 0 on reset
and the head region is append-only), so unwritten text payload bytes
are modelled as 0. -/

inductive AttrEntry where
  /-- Text entry: `size` is the allocated payload size including the NUL
  terminator (the stored len byte); `data` are the `size` payload bytes. -/
  | text (element_id : Nat) (size : Nat) (data : List Nat)
  /-- Screen-role entry. -/
  | screenRole (element_id : Nat) (role : Nat)
deriving DecidableEq, Repr

def attrEntrySize : AttrEntry → Nat
  | .text _ size _ => 3 + size
  | .screenRole _ _ => 3

def attrEntryTag : AttrEntry → Nat
  | .text _ _ _ => UI_ATTR_TAG_TEXT
  | .screenRole _ _ => UI_ATTR_TAG_SCREEN_ROLE

def attrEntryId : AttrEntry → Nat
  | .text eid _ _ => eid
  | .screenRole eid _ => eid

structure UrListState where
  element_id : Nat
  cursor : Nat
  top_index : Nat
  visible_rows : Nat
  anim_active : Nat
  anim_dir : Int
  anim_pix : Nat
  pending_top : Nat
  pending_cursor : Nat
  last_text_child : Nat
deriving DecidableEq, Repr

structure UrBarrelState where
  element_id : Nat
  aux : Nat
  value : Int
deriving DecidableEq, Repr

structure UrTriggerState where
  element_id : Nat
  version : Nat
deriving DecidableEq, Repr

def sizeof_ur_list_node : Nat := 12
def sizeof_ur_barrel_node : Nat := 6
def sizeof_ur_trigger_node : Nat := 4

structure UiRuntime where
  head_used : Nat
  used_tail : Nat
  attr_base : Nat
  attrs : List AttrEntry
  lists : List UrListState
  barrels : List UrBarrelState
  triggers : List UrTriggerState
deriving DecidableEq, Repr

/-- ur_init: zeroed runtime. -/
def ur_init : UiRuntime :=
  { head_used := 0, used_tail := 0, attr_base := 0,
    attrs := [], lists := [], barrels := [], triggers := [] }

structure Element where
  parent_id : Nat
  type : Nat
deriving DecidableEq, Repr

structure NavStackEntry where
  type : Nat
  target_element : Nat
  return_list : Nat
  saved_cursor : Nat
  saved_top : Nat
  saved_focus : Nat
  saved_active_screen : Nat
deriving DecidableEq, Repr

structure OverlayRuntime where
  active_overlay_screen_id : Nat
  remaining_ms : Nat
  mask_input : Nat
  prev_focus : Nat
deriving DecidableEq, Repr

structure ScreenAnimState where
  active : Nat
  from_screen : Nat
  to_screen : Nat
  offset_px : Int
  dir : Int
deriving DecidableEq, Repr

structure ProtocolState where
  active_screen : Nat
  screen_count : Nat
  element_count : Nat
  element_capacity : Nat
  /-- Per-element parent/type table; length = element_capacity once the
  header reserved storage (memset to 0xFF on reservation). -/
  elements : List Element
  pos_x : List Nat
  pos_y : List Nat
  scroll_x : Int
  initialized : Bool
  status_dirty : Bool
  status_dirty_id : Nat
  trigger_count : Nat
  runtime : UiRuntime
  overlay : OverlayRuntime
  protocol_version : Nat
  capabilities : Nat
  focused_element : Nat
  input_source : Nat
  nav_stack : List NavStackEntry
  active_local_screen : Nat
  nav_depth : Nat
  screen_anim : ScreenAnimState
  edit_blink_active : Nat
  edit_blink_phase : Nat
  edit_blink_counter : Nat
  header_seen : Bool
deriving DecidableEq, Repr

/-- protocol_reset_state: memset the whole state to 0, then set the
explicit defaults (ui_protocol.c). -/
def protocol_reset_state : ProtocolState :=
  { active_screen := 0
    screen_count := 0
    element_count := 0
    element_capacity := 0
    elements := []
    pos_x := []
    pos_y := []
    scroll_x := 0
    initialized := false
    status_dirty := false
    status_dirty_id := INVALID_ELEMENT_ID
    trigger_count := 0
    runtime := ur_init
    overlay := { active_overlay_screen_id := INVALID_ELEMENT_ID,
                 remaining_ms := 0, mask_input := 0,
                 prev_focus := INVALID_ELEMENT_ID }
    protocol_version := 1
    capabilities := 0
    focused_element := INVALID_ELEMENT_ID
    input_source := 0
    nav_stack := List.replicate NAV_STACK_MAX_DEPTH
      { type := NAV_CTX_LIST, target_element := INVALID_ELEMENT_ID,
        return_list := INVALID_ELEMENT_ID, saved_cursor := 0,
        saved_top := 0, saved_focus := INVALID_ELEMENT_ID,
        saved_active_screen := 0 }
    active_local_screen := INVALID_ELEMENT_ID
    nav_depth := 0
    screen_anim := { active := 0, from_screen := 0, to_screen := 0,
                     offset_px := 0, dir := 0 }
    edit_blink_active := 0
    edit_blink_phase := 0
    edit_blink_counter := 0
    header_seen := false }

/-- protocol_init = protocol_reset_state plus version/caps (already the
reset defaults). -/
def protocol_init : ProtocolState := protocol_reset_state

/-- Read g_protocol_state.elements[i] (in-bounds in all C call sites;
the default is the 0xFF fill pattern of unprovisioned slots). -/
def elemAt (st : ProtocolState) (i : Nat) : Element :=
  st.elements.getD i { parent_id := 0xFF, type := 0xFF }

/-! ## ui_runtime.c: tail node stores -/

/-- ur__alloc_tail: fails (NULL) when head_used + used_tail + size would
exceed the arena capacity, else consumes `size` tail bytes. -/
def ur__alloc_tail (rt : UiRuntime) (size : Nat) : Option UiRuntime :=
  if rt.head_used + rt.used_tail + size > UI_ATTR_ARENA_CAP then none
  else some { rt with used_tail := rt.used_tail + size }

/-- Replace the first list entry satisfying p by its image under f
(the functional rendering of a mutation through a found pointer). -/
def updateFirst {A : Type} (p : A → Bool) (f : A → A) : List A → List A
  | [] => []
  | x :: xs => if p x then f x :: xs else x :: updateFirst p f xs

def ur_list_find (rt : UiRuntime) (element_id : Nat) : Option UrListState :=
  rt.lists.find? (fun s => s.element_id == element_id)

/-- ur_list_get_or_add: returns the runtime (with the node pushed at the
list head when fresh) and the found/created state, or none out of space. -/
def ur_list_get_or_add (rt : UiRuntime) (element_id : Nat) :
    Option (UiRuntime × UrListState) :=
  match ur_list_find rt element_id with
  | some s => some (rt, s)
  | none =>
      match ur__alloc_tail rt sizeof_ur_list_node with
      | none => none
      | some rt1 =>
          let s : UrListState :=
            { element_id := element_id, cursor := 0, top_index := 0,
              visible_rows := 4, anim_active := 0, anim_dir := 0,
              anim_pix := 0, pending_top := 0, pending_cursor := 0,
              last_text_child := INVALID_ELEMENT_ID }
          some ({ rt1 with lists := s :: rt1.lists }, s)

/-- Write back a mutation through the pointer returned by
ur_list_find/get_or_add: update the first node with this element id. -/
def urListDefault : UrListState :=
  { element_id := 0, cursor := 0, top_index := 0, visible_rows := 0,
    anim_active := 0, anim_dir := 0, anim_pix := 0, pending_top := 0,
    pending_cursor := 0, last_text_child := 0 }

def ur_list_update (rt : UiRuntime) (element_id : Nat)
    (f : UrListState → UrListState) : UiRuntime :=
  { rt with lists := updateFirst (fun s => s.element_id == element_id) f rt.lists }

def ur_barrel_find (rt : UiRuntime) (element_id : Nat) : Option UrBarrelState :=
  rt.barrels.find? (fun s => s.element_id == element_id)

def ur_barrel_get_or_add (rt : UiRuntime) (element_id : Nat) :
    Option (UiRuntime × UrBarrelState) :=
  match ur_barrel_find rt element_id with
  | some s => some (rt, s)
  | none =>
      match ur__alloc_tail rt sizeof_ur_barrel_node with
      | none => none
      | some rt1 =>
          let s : UrBarrelState := { element_id := element_id, aux := 0, value := 0 }
          some ({ rt1 with barrels := s :: rt1.barrels }, s)

def ur_barrel_update (rt : UiRuntime) (element_id : Nat)
    (f : UrBarrelState → UrBarrelState) : UiRuntime :=
  { rt with barrels := updateFirst (fun s => s.element_id == element_id) f rt.barrels }

def ur_trigger_find (rt : UiRuntime) (element_id : Nat) : Option UrTriggerState :=
  rt.triggers.find? (fun s => s.element_id == element_id)

def ur_trigger_get_or_add (rt : UiRuntime) (element_id : Nat) :
    Option (UiRuntime × UrTriggerState) :=
  match ur_trigger_find rt element_id with
  | some s => some (rt, s)
  | none =>
      match ur__alloc_tail rt sizeof_ur_trigger_node with
      | none => none
      | some rt1 =>
          let s : UrTriggerState := { element_id := element_id, version := 0 }
          some ({ rt1 with triggers := s :: rt1.triggers }, s)

def ur_trigger_update (rt : UiRuntime) (element_id : Nat)
    (f : UrTriggerState → UrTriggerState) : UiRuntime :=
  { rt with triggers := updateFirst (fun s => s.element_id == element_id) f rt.triggers }

/-! ## ui_runtime.c: attribute helpers -/

/-- ui_attr_find: forward linear scan for the first entry with the given
tag and element id (rejecting out-of-capacity ids first). -/
def ui_attr_find (st : ProtocolState) (element_id tag : Nat) : Option AttrEntry :=
  if element_id ≥ st.element_capacity then none
  else st.runtime.attrs.find?
    (fun e => attrEntryTag e == tag && attrEntryId e == element_id)

/-- Write back a mutation of the entry located by ui_attr_find. -/
def ui_attr_replace (st : ProtocolState) (element_id tag : Nat)
    (f : AttrEntry → AttrEntry) : ProtocolState :=
  let attrs := updateFirst
    (fun e => attrEntryTag e == tag && attrEntryId e == element_id) f
    st.runtime.attrs
  { st with runtime := { st.runtime with attrs := attrs } }

/-- ui_attr_append: append a fresh entry during provisioning.  `need` is
the byte size written by the C code, 2 + payload_len + (len_prefix ? 1 : 0),
which equals attrEntrySize of the structured entry for both tags. -/
def ui_attr_append (st : ProtocolState) (element_id : Nat) (entry : AttrEntry) :
    Res × ProtocolState :=
  if st.initialized then (.badState, st)
  else if element_id ≥ st.element_capacity then (.range, st)
  else
    let need := attrEntrySize entry
    if st.runtime.head_used + need + st.runtime.used_tail > UI_ATTR_ARENA_CAP then
      (.noSpace, st)
    else
      (.ok, { st with runtime := { st.runtime with
        attrs := st.runtime.attrs ++ [entry],
        head_used := st.runtime.head_used + need } })

/-- ui_attr_store_text_with_cap.  `text` is the byte string (no NUL);
the C strlen length counter is uint8_t, irrelevant here because callers
pass at most 20 bytes.  Writing w bytes plus a NUL into an allocation of
`size` bytes leaves data = text.take w ++ [0] ++ previous tail bytes. -/
def ui_attr_store_text_with_cap (st : ProtocolState) (element_id : Nat)
    (text : List Nat) (capacity : Nat) : Res × ProtocolState :=
  let len := text.length
  match ui_attr_find st element_id UI_ATTR_TAG_TEXT with
  | some (.text _ size data) =>
      if size = 0 then (.noSpace, st)
      else
        let w := min len (size - 1)
        (.ok, ui_attr_replace st element_id UI_ATTR_TAG_TEXT
          (fun _ => .text element_id size
            (text.take w ++ [0] ++ data.drop (w + 1))))
  | _ =>
      let cap := if capacity ≠ 0 then capacity else len
      -- append header (len byte = cap + 1) with zero payload, then find
      -- the entry again and write min(len, cap) bytes plus the NUL
      let (res, st1) := ui_attr_append st element_id
        (.text element_id (cap + 1) (List.replicate (cap + 1) 0))
      if res ≠ .ok then (res, st1)
      else
        match ui_attr_find st1 element_id UI_ATTR_TAG_TEXT with
        | none => (.unknownId, st1)
        | some _ =>
            let w := min len cap
            (.ok, ui_attr_replace st1 element_id UI_ATTR_TAG_TEXT
              (fun e =>
                match e with
                | .text _ size data =>
                    .text element_id size
                      (text.take w ++ [0] ++ data.drop (w + 1))
                | e => e))

def ui_attr_store_text (st : ProtocolState) (element_id : Nat)
    (text : List Nat) : Res × ProtocolState :=
  ui_attr_store_text_with_cap st element_id text 0

/-- ui_attr_get_text: the stored C string (bytes up to the first NUL of
the payload). -/
def ui_attr_get_text (st : ProtocolState) (element_id : Nat) : Option (List Nat) :=
  match ui_attr_find st element_id UI_ATTR_TAG_TEXT with
  | some (.text _ _ data) => some (data.takeWhile (fun b => b ≠ 0))
  | _ => none

def ui_attr_update_text (st : ProtocolState) (element_id : Nat)
    (new_text : List Nat) : Res × ProtocolState :=
  match ui_attr_find st element_id UI_ATTR_TAG_TEXT with
  | some (.text _ size data) =>
      if size = 0 then (.noSpace, st)
      else
        let w := min new_text.length (size - 1)
        (.ok, ui_attr_replace st element_id UI_ATTR_TAG_TEXT
          (fun _ => .text element_id size
            (new_text.take w ++ [0] ++ data.drop (w + 1))))
  | _ => (.unknownId, st)

/-- ui_attr_store_position: writes into the pos_x/pos_y tables (position
is not an arena attribute).  The NULL-table check corresponds to
capacity 0 (tables unset before reservation). -/
def ui_attr_store_position (st : ProtocolState) (element_id x y : Nat) :
    Res × ProtocolState :=
  if st.element_capacity = 0 then (.badState, st)
  else if element_id ≥ st.element_capacity then (.range, st)
  else (.ok, { st with pos_x := st.pos_x.set element_id x,
                       pos_y := st.pos_y.set element_id y })

def ui_attr_get_position (st : ProtocolState) (element_id : Nat) :
    Option (Nat × Nat) :=
  if element_id ≥ st.element_count then none
  else if st.element_capacity = 0 then none
  else some (st.pos_x.getD element_id 0, st.pos_y.getD element_id 0)

def ui_attr_store_screen_role (st : ProtocolState) (element_id role : Nat) :
    Res × ProtocolState :=
  match ui_attr_find st element_id UI_ATTR_TAG_SCREEN_ROLE with
  | some _ =>
      (.ok, ui_attr_replace st element_id UI_ATTR_TAG_SCREEN_ROLE
        (fun _ => .screenRole element_id role))
  | none => ui_attr_append st element_id (.screenRole element_id role)

def ui_attr_get_screen_role (st : ProtocolState) (element_id : Nat) : Option Nat :=
  match ui_attr_find st element_id UI_ATTR_TAG_SCREEN_ROLE with
  | some (.screenRole _ role) => some role
  | _ => none

/-! ## ui_protocol.c: small state accessors -/

/-- protocol_screen_role: OVERLAY_NONE unless the element is a SCREEN
with a stored role attribute. -/
def protocol_screen_role (st : ProtocolState) (element_id : Nat) : Nat :=
  if element_id ≥ st.element_count then OVERLAY_NONE
  else if (elemAt st element_id).type ≠ ELEMENT_SCREEN then OVERLAY_NONE
  else match ui_attr_get_screen_role st element_id with
    | some role => role
    | none => OVERLAY_NONE

def protocol_numeric_value (st : ProtocolState) (element_id : Nat) : Int :=
  match ur_barrel_find st.runtime element_id with
  | some b => b.value
  | none => 0

def protocol_numeric_aux (st : ProtocolState) (element_id : Nat) : Nat :=
  match ur_barrel_find st.runtime element_id with
  | some b => b.aux
  | none => 0

/-- barrel_is_editing: bit 7 of the aux byte. -/
def barrel_is_editing (st : ProtocolState) (eid : Nat) : Bool :=
  if eid ≥ st.element_count then false
  else (protocol_numeric_aux st eid) / 128 % 2 = 1

/-! ## ui_numeric.c -/

/-- Clamp a C int to the int16 domain (the explicit clamps in
ui_numeric.c). -/
def clampInt16 (v : Int) : Int :=
  if v < -32768 then -32768 else if v > 32767 then 32767 else v

def numeric_store (st : ProtocolState) (id : Nat) (value : Int) (aux : Nat) :
    ProtocolState :=
  if id ≥ st.element_count then st
  else
    let value := clampInt16 value
    match ur_barrel_get_or_add st.runtime id with
    | none => st
    | some (rt1, _) =>
        let rt2 := ur_barrel_update rt1 id
          (fun b => { b with value := value, aux := aux })
        { st with runtime := rt2 }

def numeric_set_value (st : ProtocolState) (id : Nat) (value : Int) :
    ProtocolState :=
  if id ≥ st.element_count then st
  else
    let value := clampInt16 value
    match ur_barrel_get_or_add st.runtime id with
    | none => st
    | some (rt1, _) =>
        let rt2 := ur_barrel_update rt1 id (fun b => { b with value := value })
        { st with runtime := rt2 }

def numeric_set_aux (st : ProtocolState) (id : Nat) (aux : Nat) : ProtocolState :=
  if id ≥ st.element_count then st
  else
    match ur_barrel_get_or_add st.runtime id with
    | none => st
    | some (rt1, _) =>
        let rt2 := ur_barrel_update rt1 id (fun b => { b with aux := aux })
        { st with runtime := rt2 }

/-! ## ui_protocol.c: element storage -/

/-- protocol_reserve_element_storage: partition the arena head into the
per-element tables (sizeof(element_t) + 2 = 4 bytes per element) and set
attr_base/head_used past them.  The element table is memset to 0xFF, the
position tables to 0. -/
def protocol_reserve_element_storage (st : ProtocolState) (capacity : Nat) :
    Res × ProtocolState :=
  if capacity = 0 then (.range, st)
  else if st.element_capacity ≠ 0 then (.badState, st)
  else
    let need := capacity * 4
    if need > UI_ATTR_ARENA_CAP then (.noSpace, st)
    else
      (.ok, { st with
        elements := List.replicate capacity { parent_id := 0xFF, type := 0xFF },
        pos_x := List.replicate capacity 0,
        pos_y := List.replicate capacity 0,
        element_capacity := capacity,
        runtime := { st.runtime with attr_base := need, head_used := need } })

/-- add_basic_element: append one element slot; returns 0xFF and leaves
the state unchanged when capacity is exhausted.  The int x/y arguments
are cast to uint8_t for the position tables. -/
def add_basic_element (st : ProtocolState) (parent ty : Nat) (x y : Int) :
    Nat × ProtocolState :=
  if st.element_capacity = 0 then (0xFF, st)
  else if st.element_count ≥ st.element_capacity then (0xFF, st)
  else
    let id := st.element_count
    let st1 := { st with
      element_count := st.element_count + 1,
      elements := st.elements.set id { parent_id := parent, type := ty } }
    let (_, st2) := ui_attr_store_position st1 id (x % 256).toNat (y % 256).toNat
    (id, st2)

/-- protocol_element_changed: last-writer-wins dirty id. -/
def protocol_element_changed (st : ProtocolState) (eid : Nat) : ProtocolState :=
  if eid ≥ st.element_count then st
  else { st with status_dirty := true, status_dirty_id := eid }

/-! ## ui_tree.c

Each helper iterates element ids 0 ..< element_count; the C for loops
are rendered as scans of List.range element_count, and the bounded
parent walks as fuel recursion with fuel = element_count. -/

def list_item_count (st : ProtocolState) (list_eid : Nat) : Nat :=
  (List.range st.element_count).countP
    (fun i => (elemAt st i).parent_id = list_eid ∧ (elemAt st i).type = ELEMENT_TEXT)

/-- is_descendant_of: bounded walk up the parent chain. -/
def is_descendant_of (st : ProtocolState) (eid ancestor : Nat) : Bool :=
  if ancestor = INVALID_ELEMENT_ID then false
  else descendGo st.element_count eid
where
  descendGo : Nat → Nat → Bool
    | 0, _ => false
    | fuel + 1, current =>
        if current = INVALID_ELEMENT_ID then false
        else if current ≥ st.element_count then false
        else if current = ancestor then true
        else descendGo fuel (elemAt st current).parent_id

/-- element_parent_list: climb parents until a LIST_VIEW is found. -/
def element_parent_list (st : ProtocolState) (eid : Nat) : Nat :=
  if eid ≥ st.element_count then INVALID_ELEMENT_ID
  else plGo st.element_count (elemAt st eid).parent_id
where
  plGo : Nat → Nat → Nat
    | 0, _ => INVALID_ELEMENT_ID
    | fuel + 1, current =>
        if current = INVALID_ELEMENT_ID then INVALID_ELEMENT_ID
        else if current ≥ st.element_count then INVALID_ELEMENT_ID
        else if (elemAt st current).type = ELEMENT_LIST_VIEW then current
        else plGo fuel (elemAt st current).parent_id

/-- element_root_screen: climb parents (starting at the element itself)
until a SCREEN is found. -/
def element_root_screen (st : ProtocolState) (eid : Nat) : Nat :=
  if eid ≥ st.element_count then INVALID_ELEMENT_ID
  else rsGo st.element_count eid
where
  rsGo : Nat → Nat → Nat
    | 0, _ => INVALID_ELEMENT_ID
    | fuel + 1, current =>
        if current = INVALID_ELEMENT_ID then INVALID_ELEMENT_ID
        else if current ≥ st.element_count then INVALID_ELEMENT_ID
        else if (elemAt st current).type = ELEMENT_SCREEN then current
        else rsGo fuel (elemAt st current).parent_id

/-- The counting predicate of find_screen_id_by_ordinal: a base screen
(type SCREEN, overlay role NONE, parent sentinel). -/
def isBaseScreen (st : ProtocolState) (i : Nat) : Bool :=
  (elemAt st i).type = ELEMENT_SCREEN ∧
  protocol_screen_role st i = OVERLAY_NONE ∧
  (elemAt st i).parent_id = INVALID_ELEMENT_ID

/-- find_screen_id_by_ordinal: id of the sord-th base screen in
declaration order (the C loop over i with its `seen` counter is the scan
below, seeded with seen = 0). -/
def find_screen_id_by_ordinal (st : ProtocolState) (sord : Nat) : Nat :=
  fsGo (List.range st.element_count) 0
where
  fsGo : List Nat → Nat → Nat
    | [], _ => INVALID_ELEMENT_ID
    | i :: is, seen =>
        if isBaseScreen st i then
          if seen = sord then i else fsGo is (seen + 1)
        else fsGo is seen

/-- The counting predicate of find_screen_ordinal_by_id's loop: type
SCREEN with overlay role NONE — the loop does NOT re-check the parent
sentinel. -/
def isCountedScreen (st : ProtocolState) (i : Nat) : Bool :=
  (elemAt st i).type = ELEMENT_SCREEN ∧ protocol_screen_role st i = OVERLAY_NONE

/-- find_screen_ordinal_by_id: rejects non-screens and screens with a
parent, then counts non-overlay screens preceding the id. -/
def find_screen_ordinal_by_id (st : ProtocolState) (screen_id : Nat) : Nat :=
  if screen_id ≥ st.element_count then INVALID_ELEMENT_ID
  else if (elemAt st screen_id).type ≠ ELEMENT_SCREEN then INVALID_ELEMENT_ID
  else if (elemAt st screen_id).parent_id ≠ INVALID_ELEMENT_ID then
    INVALID_ELEMENT_ID
  else foGo (List.range st.element_count) 0
where
  foGo : List Nat → Nat → Nat
    | [], _ => INVALID_ELEMENT_ID
    | i :: is, ord =>
        if isCountedScreen st i then
          if i = screen_id then ord else foGo is (ord + 1)
        else foGo is ord

/-! ## ui_focus.c -/

/-- nav_active_context: the screen of the active ordinal at depth 0,
else the top-of-stack target element. -/
def nav_active_context (st : ProtocolState) : Nat :=
  if st.nav_depth = 0 then find_screen_id_by_ordinal st st.active_screen
  else
    let top := st.nav_depth - 1
    if top ≥ NAV_STACK_MAX_DEPTH then INVALID_ELEMENT_ID
    else (st.nav_stack.getD top
      { type := 0, target_element := INVALID_ELEMENT_ID,
        return_list := INVALID_ELEMENT_ID, saved_cursor := 0, saved_top := 0,
        saved_focus := INVALID_ELEMENT_ID, saved_active_screen := 0 }).target_element

def navStackDefault : NavStackEntry :=
  { type := 0, target_element := INVALID_ELEMENT_ID,
    return_list := INVALID_ELEMENT_ID, saved_cursor := 0, saved_top := 0,
    saved_focus := INVALID_ELEMENT_ID, saved_active_screen := 0 }

/-- nav_update_active_local_screen. -/
def nav_update_active_local_screen (st : ProtocolState) : ProtocolState :=
  let st := { st with active_local_screen := INVALID_ELEMENT_ID }
  if st.nav_depth = 0 then st
  else
    let top := st.nav_depth - 1
    if top ≥ NAV_STACK_MAX_DEPTH then st
    else
      let entry := st.nav_stack.getD top navStackDefault
      if entry.type = NAV_CTX_LOCAL_SCREEN then
        { st with active_local_screen := entry.target_element }
      else st

/-- nav_target_active: is target_id somewhere on the nav stack. -/
def nav_target_active (st : ProtocolState) (target_id : Nat) : Bool :=
  if target_id = INVALID_ELEMENT_ID then false
  else
    let depth := min st.nav_depth NAV_STACK_MAX_DEPTH
    (List.range depth).any
      (fun i => (st.nav_stack.getD i navStackDefault).target_element == target_id)

/-- screen_is_local: a SCREEN whose parent is a TEXT. -/
def screen_is_local (st : ProtocolState) (screen_id : Nat) : Bool :=
  if screen_id ≥ st.element_count then false
  else if (elemAt st screen_id).type ≠ ELEMENT_SCREEN then false
  else
    let parent := (elemAt st screen_id).parent_id
    if parent = INVALID_ELEMENT_ID ∨ parent ≥ st.element_count then false
    else (elemAt st parent).type = ELEMENT_TEXT

/-- The nested-list visibility walk at the end of
protocol_is_element_visible: every LIST ancestor whose owner TEXT sits
in another LIST must itself be on the nav stack. -/
def visibleNestedWalk (st : ProtocolState) : Nat → Nat → Bool
  | 0, _ => true
  | fuel + 1, current =>
      if current = INVALID_ELEMENT_ID then true
      else if current ≥ st.element_count then true
      else
        let currentEl := elemAt st current
        let blocked :=
          if currentEl.type = ELEMENT_LIST_VIEW then
            let owner_text := currentEl.parent_id
            if owner_text ≠ INVALID_ELEMENT_ID ∧ owner_text < st.element_count then
              let ownerEl := elemAt st owner_text
              if ownerEl.type = ELEMENT_TEXT then
                let list_parent := ownerEl.parent_id
                if list_parent ≠ INVALID_ELEMENT_ID ∧
                    list_parent < st.element_count then
                  (elemAt st list_parent).type = ELEMENT_LIST_VIEW ∧
                    ¬ nav_target_active st current
                else false
              else false
            else false
          else false
        if blocked then false
        else visibleNestedWalk st fuel currentEl.parent_id

/-- protocol_is_element_visible. -/
def protocol_is_element_visible (st : ProtocolState) (eid : Nat) : Bool :=
  if eid ≥ st.element_count then false
  else
    let context := nav_active_context st
    let extra_screen :=
      if st.nav_depth = 0 ∧ st.screen_anim.active ≠ 0 then
        let ex := find_screen_id_by_ordinal st st.screen_anim.from_screen
        if ex = context then INVALID_ELEMENT_ID else ex
      else INVALID_ELEMENT_ID
    if context = INVALID_ELEMENT_ID ∧ extra_screen = INVALID_ELEMENT_ID then false
    else
      let visible :=
        if st.nav_depth = 0 then
          let v1 := if context ≠ INVALID_ELEMENT_ID then
              is_descendant_of st eid context else false
          if ¬ v1 ∧ extra_screen ≠ INVALID_ELEMENT_ID then
            is_descendant_of st eid extra_screen
          else v1
        else
          let top := st.nav_depth - 1
          if top ≥ NAV_STACK_MAX_DEPTH then false
          else
            let entry := st.nav_stack.getD top navStackDefault
            eid = entry.target_element ∨ is_descendant_of st eid entry.target_element
      if ¬ visible then false
      else
        let root_screen := element_root_screen st eid
        if root_screen = INVALID_ELEMENT_ID then false
        else if screen_is_local st root_screen ∧
            ¬ nav_target_active st root_screen then false
        else visibleNestedWalk st st.element_count eid

/-- element_focusable: LIST_VIEW, NUMBER_EDIT, TRIGGER, BARREL. -/
def element_focusable (st : ProtocolState) (eid : Nat) : Bool :=
  if eid ≥ st.element_count then false
  else
    let t := (elemAt st eid).type
    t = ELEMENT_LIST_VIEW ∨ t = ELEMENT_NUMBER_EDIT ∨
      t = ELEMENT_TRIGGER ∨ t = ELEMENT_BARREL

/-- protocol_set_focus: only visible focusable in-range elements take. -/
def protocol_set_focus (st : ProtocolState) (element_id : Nat) : ProtocolState :=
  if element_id ≥ st.element_count then st
  else if ¬ protocol_is_element_visible st element_id then st
  else if ¬ element_focusable st element_id then st
  else { st with focused_element := element_id }

def protocol_clear_focus (st : ProtocolState) : ProtocolState :=
  { st with focused_element := INVALID_ELEMENT_ID }

/-- protocol_focus_first_under: first visible focusable element equal to
or under owner_id (ids ascending); clears focus when none. -/
def protocol_focus_first_under (st : ProtocolState) (owner_id : Nat) :
    ProtocolState :=
  match (List.range st.element_count).find?
    (fun i => protocol_is_element_visible st i &&
      (i == owner_id || is_descendant_of st i owner_id) &&
      element_focusable st i) with
  | some i => protocol_set_focus st i
  | none => protocol_clear_focus st

/-- protocol_register_local_screen: reparent the screen to its owner
text row. -/
def protocol_register_local_screen (st : ProtocolState)
    (screen_id owner_text : Nat) : ProtocolState :=
  if screen_id ≥ st.element_count then st
  else
    let owner_text := if owner_text ≥ st.element_count then
      INVALID_ELEMENT_ID else owner_text
    if owner_text ≠ INVALID_ELEMENT_ID then
      let els := st.elements.set screen_id
        { elemAt st screen_id with parent_id := owner_text }
      { st with elements := els }
    else st

/-- protocol_text_local_screen: first SCREEN child of the text. -/
def protocol_text_local_screen (st : ProtocolState) (text_id : Nat) : Nat :=
  if text_id ≥ st.element_count then INVALID_ELEMENT_ID
  else
    match (List.range st.element_count).find?
      (fun eid => (elemAt st eid).parent_id == text_id &&
        (elemAt st eid).type == ELEMENT_SCREEN) with
    | some eid => eid
    | none => INVALID_ELEMENT_ID

/-- nav_push_list: snapshot the parent list, zero the child list,
deepen the stack and focus the target. -/
def nav_push_list (st : ProtocolState) (parent_list target_list : Nat) :
    Nat × ProtocolState :=
  if st.nav_depth ≥ NAV_STACK_MAX_DEPTH then (0, st)
  else
    match ur_list_get_or_add st.runtime parent_list with
    | none => (0, st)
    | some (rt1, parent_state) =>
        match ur_list_get_or_add rt1 target_list with
        | none => (0, st)
        | some (rt2, _child_state) =>
            let entry : NavStackEntry :=
              { type := NAV_CTX_LIST, target_element := target_list,
                return_list := parent_list,
                saved_cursor := parent_state.cursor,
                saved_top := parent_state.top_index,
                saved_focus := st.focused_element,
                saved_active_screen := st.active_screen }
            let rt3 := ur_list_update rt2 target_list (fun c =>
              { c with cursor := 0, top_index := 0, anim_active := 0,
                       anim_pix := 0, anim_dir := 0 })
            let ns := st.nav_stack.set st.nav_depth entry
            let st1 := { st with runtime := rt3, nav_stack := ns,
                                 nav_depth := st.nav_depth + 1 }
            let st2 := nav_update_active_local_screen st1
            (1, protocol_set_focus st2 target_list)

/-- nav_push_local_screen: snapshot the parent list, push a local-screen
context, re-point the active ordinal when find_screen_ordinal_by_id
yields one, focus the first focusable element under the screen, falling
back to the parent list. -/
def nav_push_local_screen (st : ProtocolState) (parent_list screen_id : Nat) :
    Nat × ProtocolState :=
  if st.nav_depth ≥ NAV_STACK_MAX_DEPTH then (0, st)
  else
    match ur_list_get_or_add st.runtime parent_list with
    | none => (0, st)
    | some (rt1, parent_state) =>
        let entry : NavStackEntry :=
          { type := NAV_CTX_LOCAL_SCREEN, target_element := screen_id,
            return_list := parent_list,
            saved_cursor := parent_state.cursor,
            saved_top := parent_state.top_index,
            saved_focus := st.focused_element,
            saved_active_screen := st.active_screen }
        let ns := st.nav_stack.set st.nav_depth entry
        let st1 := { st with runtime := rt1, nav_stack := ns }
        let new_ord := find_screen_ordinal_by_id st1 screen_id
        let st2 :=
          if new_ord ≠ INVALID_ELEMENT_ID then
            { st1 with active_screen := new_ord
                       scroll_x := (new_ord : Int) * 128 }
          else st1
        let st3 := { st2 with nav_depth := st2.nav_depth + 1 }
        let st4 := nav_update_active_local_screen st3
        let st5 := protocol_focus_first_under st4 screen_id
        let st6 :=
          if st5.focused_element = INVALID_ELEMENT_ID then
            protocol_set_focus st5 parent_list
          else st5
        (1, st6)

/-- nav_pop: drop the top entry, restore the return list's cursor and
top_index, restore the active ordinal for local-screen contexts, and
focus the return list. -/
def nav_pop (st : ProtocolState) : Nat × ProtocolState :=
  if st.nav_depth = 0 then (0, st)
  else
    let top_index := st.nav_depth - 1
    if top_index ≥ NAV_STACK_MAX_DEPTH then (0, st)
    else
      let entry := st.nav_stack.getD top_index navStackDefault
      let st1 := { st with nav_depth := top_index }
      let st2 := nav_update_active_local_screen st1
      let st3 :=
        if entry.return_list ≠ INVALID_ELEMENT_ID then
          match ur_list_get_or_add st2.runtime entry.return_list with
          | none => st2
          | some (rt1, _) =>
              let rt2 := ur_list_update rt1 entry.return_list (fun p =>
                { p with cursor := entry.saved_cursor,
                         top_index := entry.saved_top, anim_active := 0,
                         anim_pix := 0, anim_dir := 0 })
              { st2 with runtime := rt2 }
        else st2
      let st4 :=
        if entry.type = NAV_CTX_LOCAL_SCREEN then
          { st3 with active_screen := entry.saved_active_screen
                     scroll_x := (entry.saved_active_screen : Int) * 128 }
        else st3
      let st5 :=
        if entry.return_list ≠ INVALID_ELEMENT_ID then
          protocol_set_focus st4 entry.return_list
        else protocol_clear_focus st4
      (1, st5)

/-- protocol_focus_next: first visible focusable id scanning forwards
modulo element_count from one past the focus. -/
def protocol_focus_next (st : ProtocolState) : ProtocolState :=
  let count := st.element_count
  if count = 0 then protocol_clear_focus st
  else
    let start := if st.focused_element = INVALID_ELEMENT_ID then 0
      else (st.focused_element + 1) % count
    match (List.range count).find?
      (fun step =>
        let candidate := (start + step) % count
        protocol_is_element_visible st candidate &&
          element_focusable st candidate) with
    | some step => protocol_set_focus st ((start + step) % count)
    | none => protocol_clear_focus st

/-- protocol_focus_prev: scan backwards; the int16 cursor only wraps to
count - 1 when it would go negative, exactly as in the C loop. -/
def protocol_focus_prev (st : ProtocolState) : ProtocolState :=
  let count := st.element_count
  if count = 0 then protocol_clear_focus st
  else
    let start : Int := if st.focused_element = INVALID_ELEMENT_ID then
        (count : Int) - 1
      else (st.focused_element : Int) - 1
    focusPrevGo st count start
where
  focusPrevGo (st : ProtocolState) : Nat → Int → ProtocolState
    | 0, _ => protocol_clear_focus st
    | fuel + 1, start =>
        let start := if start < 0 then (st.element_count : Int) - 1 else start
        let candidate := start.toNat
        if protocol_is_element_visible st candidate ∧
            element_focusable st candidate then
          protocol_set_focus st candidate
        else focusPrevGo st fuel (start - 1)

/-- protocol_focus_first_on_screen (no-op at nav depth > 0). -/
def protocol_focus_first_on_screen (st : ProtocolState) (sord : Nat) :
    ProtocolState :=
  if st.nav_depth ≠ 0 then st
  else
    let screen_eid := find_screen_id_by_ordinal st sord
    if screen_eid = INVALID_ELEMENT_ID then protocol_clear_focus st
    else
      match (List.range st.element_count).find?
        (fun i => protocol_is_element_visible st i &&
          is_descendant_of st i screen_eid && element_focusable st i) with
      | some i => protocol_set_focus st i
      | none => protocol_clear_focus st

/-! ## ui_protocol.c: descriptor text parser

A descriptor span is the char list from the C pointer s up to and
including e (the last character).  Pointer comparisons against e become
length conditions on the current suffix: a pointer q satisfies q ≥ e iff
the suffix starting at q has at most one character, because every suffix
ends at e. -/

def is_space_char (c : Char) : Bool :=
  c = ' ' ∨ c = '\t' ∨ c = '\n' ∨ c = '\r' ∨ c = '\x0c' ∨ c = '\x0b'

def is_digit_char (c : Char) : Bool :=
  '0' ≤ c ∧ c ≤ '9'

/-- The while (q < e && is_space(*q)) q++ loops. -/
def spanSkipSpaces : List Char → List Char
  | [] => []
  | [c] => [c]
  | c :: rest => if is_space_char c then spanSkipSpaces rest else c :: rest

/-- The digit-accumulation loop: while (q < e && is_digit(*q)). Returns
the value, whether any digit was read, and the rest. -/
def spanReadDigits : List Char → Int → Bool → Int × Bool
  | [], val, anyd => (val, anyd)
  | [_], val, anyd => (val, anyd)   -- q = e stops the loop
  | c :: rest, val, anyd =>
      if is_digit_char c then
        spanReadDigits rest (val * 10 + ((c.toNat : Int) - 48)) true
      else (val, anyd)

/-- One match attempt of extract_int_key at the current position.
Returns none to continue scanning at the next position, some none when
the C code returns RES_PARSE_FAIL from inside the attempt, and
some (some v) on success. -/
def extractIntAttempt (key : List Char) : List Char → Option (Option Int)
  | [] => none
  | c :: rest =>
      if c ≠ '"' then none
      else if rest.take key.length ≠ key then none
      else
        match rest.drop key.length with
        | '"' :: q0 =>
            let q1 := spanSkipSpaces q0
            match q1 with
            | ':' :: q2 =>
                -- a colon sitting exactly at e fails the q < e test and
                -- resumes the outer scan
                if q2 = [] then none
                else
                let q3 := spanSkipSpaces q2
                if q3.length ≤ 1 then some none      -- q >= e: PARSE_FAIL
                else
                  -- optional opening quote for quoted numbers
                  let q4 := match q3 with
                    | '"' :: t => t
                    | t => t
                  let (sign, q5) : Int × List Char := match q4 with
                    | '-' :: t => if q4.length ≥ 2 then (-1, t) else (1, q4)
                    | t => (1, t)
                  let (val, anyd) := spanReadDigits q5 0 false
                  if anyd then some (some (sign * val)) else some none
            | _ => none                               -- q >= e or not ':'
        | _ => none

/-- extract_int_key: scan every position of the span; the for condition
p + klen + 3 <= e is length ≥ klen + 4 for the suffix at p. -/
def extract_int_key (cs : List Char) (key : List Char) : Option Int :=
  eiGo cs
where
  eiGo : List Char → Option Int
    | [] => none
    | c :: rest =>
        if rest.length + 1 < key.length + 4 then none
        else
          match extractIntAttempt key (c :: rest) with
          | some r => r
          | none => eiGo rest

/-- The copy loop of extract_string_key: copy while q < e, *q ≠ '"' and
idx + 1 < outsz.  Returns the copied chars and the rest (still ending
at e). -/
def spanCopyString : List Char → Nat → List Char → List Char × List Char
  | [], _outsz, acc => (acc.reverse, [])
  | [c], _outsz, acc => (acc.reverse, [c])      -- q = e stops the loop
  | c :: rest, outsz, acc =>
      if c = '"' then (acc.reverse, c :: rest)
      else if acc.length + 1 < outsz then spanCopyString rest outsz (c :: acc)
      else (acc.reverse, c :: rest)

/-- One match attempt of extract_string_key (same contract as
extractIntAttempt). -/
def extractStringAttempt (key : List Char) (outsz : Nat) :
    List Char → Option (Option (List Char))
  | [] => none
  | c :: rest =>
      if c ≠ '"' then none
      else if rest.take key.length ≠ key then none
      else
        match rest.drop key.length with
        | '"' :: q0 =>
            let q1 := spanSkipSpaces q0
            match q1 with
            | ':' :: q2 =>
                -- a colon sitting exactly at e fails the q < e test and
                -- resumes the outer scan
                if q2 = [] then none
                else
                let q3 := spanSkipSpaces q2
                match q3 with
                | '"' :: q4 =>
                    if q3.length ≤ 1 then some none  -- q >= e: PARSE_FAIL
                    else
                      let (out, q5) := spanCopyString q4 outsz []
                      -- the copy loop stops at e (PARSE_FAIL), at a
                      -- closing quote, or at the outsz bound (both OK)
                      if q5.length ≤ 1 then some none
                      else some (some out)
                | _ => some none  -- q >= e or *q != '"': PARSE_FAIL
            | _ => none
        | _ => none

/-- extract_string_key. -/
def extract_string_key (cs : List Char) (key : List Char) (outsz : Nat) :
    Option (List Char) :=
  esGo cs
where
  esGo : List Char → Option (List Char)
    | [] => none
    | c :: rest =>
        if rest.length + 1 < key.length + 4 then none
        else
          match extractStringAttempt key outsz (c :: rest) with
          | some r => r
          | none => esGo rest

/-- map_type_key: single-letter tokens plus the legacy two-letter ones. -/
def map_type_key (s : List Char) : Nat :=
  match s with
  | [] => 0xFF
  | [c] =>
      if c = 's' then ELEMENT_SCREEN
      else if c = 't' then ELEMENT_TEXT
      else if c = 'l' then ELEMENT_LIST_VIEW
      else if c = 'b' then ELEMENT_BARREL
      else if c = 'i' then ELEMENT_TRIGGER
      else 0xFF
  | [c1, c2] =>
      if c1 = 't' ∧ c2 = 'e' then ELEMENT_TEXT
      else if c1 = 'l' ∧ c2 = 'i' then ELEMENT_LIST_VIEW
      else if c1 = 'b' ∧ c2 = 'a' then ELEMENT_BARREL
      else if c1 = 't' ∧ c2 = 'r' then ELEMENT_TRIGGER
      else 0xFF
  | _ => 0xFF

/-! ## ui_protocol.c: element create/update handlers

The element_create_ctx_t fields are passed as arguments; `span` is the
object text from os to oe inclusive.  err() is RES_PARSE_FAIL. -/

structure CreateCtx where
  parent_id : Nat
  x : Int
  y : Int
  span : List Char

/-- handle_create_screen. -/
def handle_create_screen (st : ProtocolState) (ctx : CreateCtx) :
    Res × ProtocolState :=
  let (sid, st1) := add_basic_element st ctx.parent_id ELEMENT_SCREEN ctx.x ctx.y
  if sid = 0xFF then (.parseFail, st1)
  else
    let (ov, st2) :=
      if ctx.parent_id = INVALID_ELEMENT_ID then
        match extract_int_key ctx.span (String.toList "ov") with
        | some v =>
            let ov := if v < 0 then 0 else if v > 1 then 1 else v.toNat
            if ov ≠ 0 then
              let (_, st2) := ui_attr_store_screen_role st1 sid ov
              (ov, st2)
            else (ov, st1)
        | none => (0, st1)
      else (0, st1)
    let st3 :=
      if ctx.parent_id = INVALID_ELEMENT_ID ∧ ov = 0 then
        let st3 := { st2 with screen_count := st2.screen_count + 1 }
        if st3.screen_count = 1 then { st3 with active_screen := 0 } else st3
      else st2
    let (owner_text, st4) :=
      if ctx.parent_id ≠ INVALID_ELEMENT_ID then
        let parent_type := (elemAt st3 ctx.parent_id).type
        if parent_type = ELEMENT_TEXT then (ctx.parent_id, st3)
        else if parent_type = ELEMENT_LIST_VIEW then
          match ur_list_get_or_add st3.runtime ctx.parent_id with
          | some (rt1, ls) => (ls.last_text_child, { st3 with runtime := rt1 })
          | none => (INVALID_ELEMENT_ID, st3)
        else (INVALID_ELEMENT_ID, st3)
      else (INVALID_ELEMENT_ID, st3)
    (.ok, protocol_register_local_screen st4 sid owner_text)

/-- handle_create_list. -/
def handle_create_list (st : ProtocolState) (ctx : CreateCtx) :
    Res × ProtocolState :=
  let (lid, st1) := add_basic_element st ctx.parent_id ELEMENT_LIST_VIEW ctx.x ctx.y
  if lid = 0xFF then (.parseFail, st1)
  else
    match ur_list_get_or_add st1.runtime lid with
    | none => (.ok, st1)
    | some (rt1, _) =>
        let rows :=
          match extract_int_key ctx.span (String.toList "r") with
          | some r => some (if r < 1 then 1 else if r > 6 then 6 else r.toNat)
          | none => none
        let rt2 := ur_list_update rt1 lid (fun ls =>
          { ls with visible_rows := rows.getD 4,
                    last_text_child := INVALID_ELEMENT_ID })
        (.ok, { st1 with runtime := rt2 })

/-- handle_create_text: row texts under a list get y = row_index * 8
(uint8 wrap) and update the list's last_text_child; the result of
ui_attr_store_text_with_cap is discarded in both branches. -/
def handle_create_text (st : ProtocolState) (ctx : CreateCtx) :
    Res × ProtocolState :=
  let is_list_item :=
    ctx.parent_id ≠ INVALID_ELEMENT_ID ∧
      (elemAt st ctx.parent_id).type = ELEMENT_LIST_VIEW
  let tb := (extract_string_key ctx.span (String.toList "tx") 21).getD []
  let cap :=
    match extract_int_key ctx.span (String.toList "c") with
    | some c => if c < 0 then 0 else if c > 20 then 20 else c.toNat
    | none => 0
  if is_list_item then
    let row_y : Int := ((list_item_count st ctx.parent_id) * 8 % 256 : Nat)
    let (id, st1) := add_basic_element st ctx.parent_id ELEMENT_TEXT ctx.x row_y
    if id = 0xFF then (.parseFail, st1)
    else
      let (_, st2) := ui_attr_store_text_with_cap st1 id
        (tb.map Char.toNat) cap
      match ur_list_get_or_add st2.runtime ctx.parent_id with
      | none => (.ok, st2)
      | some (rt1, _) =>
          let rt2 := ur_list_update rt1 ctx.parent_id
            (fun ls => { ls with last_text_child := id })
          (.ok, { st2 with runtime := rt2 })
  else
    let (id, st1) := add_basic_element st ctx.parent_id ELEMENT_TEXT ctx.x ctx.y
    if id = 0xFF then (.parseFail, st1)
    else
      let (_, st2) := ui_attr_store_text_with_cap st1 id
        (tb.map Char.toNat) cap
      -- the non-list-item branch re-checks the parent type (dead for
      -- list parents, kept from the source)
      if ctx.parent_id ≠ INVALID_ELEMENT_ID ∧
          (elemAt st2 ctx.parent_id).type = ELEMENT_LIST_VIEW then
        match ur_list_get_or_add st2.runtime ctx.parent_id with
        | none => (.ok, st2)
        | some (rt1, _) =>
            let rt2 := ur_list_update rt1 ctx.parent_id
              (fun ls => { ls with last_text_child := id })
            (.ok, { st2 with runtime := rt2 })
      else (.ok, st2)

/-- handle_create_barrel: a negative initial `v` is clamped to 0 before
numeric_store. -/
def handle_create_barrel (st : ProtocolState) (ctx : CreateCtx) :
    Res × ProtocolState :=
  let (id, st1) := add_basic_element st ctx.parent_id ELEMENT_BARREL ctx.x ctx.y
  if id = 0xFF then (.parseFail, st1)
  else
    let val := (extract_int_key ctx.span (String.toList "v")).getD 0
    let val := if val < 0 then 0 else val
    (.ok, numeric_store st1 id val 0)

/-- handle_create_trigger. -/
def handle_create_trigger (st : ProtocolState) (ctx : CreateCtx) :
    Res × ProtocolState :=
  let (id, st1) := add_basic_element st ctx.parent_id ELEMENT_TRIGGER ctx.x ctx.y
  if id = 0xFF then (.parseFail, st1)
  else
    match ur_trigger_get_or_add st1.runtime id with
    | none => (.parseFail, st1)
    | some (rt1, _) =>
        (.ok, { st1 with runtime := rt1,
                         trigger_count := st1.trigger_count + 1 })

/-- handle_update_text: the result of ui_attr_update_text is discarded. -/
def handle_update_text (st : ProtocolState) (id : Nat) (span : List Char) :
    Res × ProtocolState :=
  match extract_string_key span (String.toList "tx") 21 with
  | some tb =>
      let (_, st1) := ui_attr_update_text st id (tb.map Char.toNat)
      (.ok, st1)
  | none => (.ok, st)

/-- handle_update_barrel: v defaults to 0 when absent and goes through
numeric_set_value (int16 clamping only — negatives stay negative). -/
def handle_update_barrel (st : ProtocolState) (id : Nat) (span : List Char) :
    Res × ProtocolState :=
  let v := (extract_int_key span (String.toList "v")).getD 0
  (.ok, numeric_set_value st id v)

/-- handle_element_object: header handling, update-by-id dispatch and
create dispatch through the element handler table. -/
def handle_element_object (st : ProtocolState) (span : List Char) :
    Res × ProtocolState :=
  let type_buf := (extract_string_key span (String.toList "t") 16).getD []
  if type_buf = ['h'] then
    match extract_int_key span (String.toList "n") with
    | none => (.parseFail, st)
    | some n =>
        if n ≤ 0 ∨ n > 255 then (.parseFail, st)
        else
          let (res, st1) := protocol_reserve_element_storage st n.toNat
          if res ≠ .ok then (res, st1)
          else (.ok, { st1 with header_seen := true })
  else if st.element_capacity = 0 then (.badState, st)
  else
    let tcode := map_type_key type_buf
    let parent := (extract_int_key span (String.toList "p")).getD (-1)
    match extract_int_key span (String.toList "e") with
    | some upd_id =>
        if 0 ≤ upd_id ∧ upd_id < (st.element_count : Int) then
          let uel := elemAt st upd_id.toNat
          if type_buf ≠ [] ∧ map_type_key type_buf ≠ uel.type then (.ok, st)
          else if uel.type = ELEMENT_TEXT then
            handle_update_text st upd_id.toNat span
          else if uel.type = ELEMENT_BARREL then
            handle_update_barrel st upd_id.toNat span
          else (.ok, st)    -- handlers without an update entry
        else handleCreatePath st span tcode parent
    | none => handleCreatePath st span tcode parent
where
  handleCreatePath (st : ProtocolState) (span : List Char)
      (tcode : Nat) (parent : Int) : Res × ProtocolState :=
    let parent_id :=
      if 0 ≤ parent ∧ parent < (st.element_count : Int) then parent.toNat
      else INVALID_ELEMENT_ID
    let x := (extract_int_key span (String.toList "x")).getD 0
    let y := (extract_int_key span (String.toList "y")).getD 0
    let ctx : CreateCtx := { parent_id := parent_id, x := x, y := y, span := span }
    if tcode = ELEMENT_SCREEN then handle_create_screen st ctx
    else if tcode = ELEMENT_LIST_VIEW then handle_create_list st ctx
    else if tcode = ELEMENT_TEXT then handle_create_text st ctx
    else if tcode = ELEMENT_BARREL then handle_create_barrel st ctx
    else if tcode = ELEMENT_TRIGGER then handle_create_trigger st ctx
    else (.ok, st)    -- no handler for this type token

/-- parse_single_element_object: trim, check braces, delegate. -/
def parse_single_element_object (st : ProtocolState) (buf : List Char) :
    Res × ProtocolState :=
  if buf.length < 2 then (.badLen, st)
  else
    let s := buf.dropWhile is_space_char
    let s := (s.reverse.dropWhile is_space_char).reverse
    if s.length ≤ 1 then (.parseFail, st)
    else if s.headD ' ' ≠ '{' ∨ s.getLastD ' ' ≠ '}' then (.parseFail, st)
    else handle_element_object st s

/-- protocol_apply_json_object_internal.  The returned Bool is the
render request raised on COMMIT (volatile g_render_requested). -/
def protocol_apply_json_object_internal (st : ProtocolState)
    (buf : List Char) (flags : Nat) : Res × ProtocolState × Bool :=
  let st := if flags % 2 = 1 then protocol_reset_state else st
  let (rc, st1) :=
    if buf.length > 0 then parse_single_element_object st buf
    else (.ok, st)
  if flags / 2 % 2 = 1 then
    if st1.element_capacity = 0 then
      if rc = .ok then (.badState, st1, false) else (rc, st1, false)
    else (rc, { st1 with initialized := true }, true)
  else (rc, st1, false)

/-- cmd_json: payload = [flags][json bytes]. -/
def cmd_json (st : ProtocolState) (payload : List Nat) :
    Res × ProtocolState × Bool :=
  match payload with
  | [] => (.badLen, st, false)
  | flags :: json =>
      protocol_apply_json_object_internal st
        (json.map Char.ofNat) flags

/-- cmd_json_abort: placeholder, returns 0. -/
def cmd_json_abort (st : ProtocolState) : Res × ProtocolState := (.ok, st)

/-! ## ui_tree.c: list row helpers (need protocol_is_element_visible) -/

/-- list_row_count: visible TEXT children of the list. -/
def list_row_count (st : ProtocolState) (list_eid : Nat) : Nat :=
  (List.range st.element_count).countP
    (fun i => (elemAt st i).parent_id = list_eid ∧
      (elemAt st i).type = ELEMENT_TEXT ∧
      protocol_is_element_visible st i)

/-- list_child_by_index: the row_index-th visible TEXT child. -/
def list_child_by_index (st : ProtocolState) (list_eid row_index : Nat) : Nat :=
  lcGo (List.range st.element_count) 0
where
  lcGo : List Nat → Nat → Nat
    | [], _ => INVALID_ELEMENT_ID
    | i :: is, cnt =>
        if (elemAt st i).parent_id = list_eid ∧
            (elemAt st i).type = ELEMENT_TEXT ∧
            protocol_is_element_visible st i then
          if cnt = row_index then i else lcGo is (cnt + 1)
        else lcGo is cnt

/-- list_row_index_of_text. -/
def list_row_index_of_text (st : ProtocolState) (list_eid text_eid : Nat) : Nat :=
  if list_eid ≥ st.element_count then INVALID_ELEMENT_ID
  else if text_eid ≥ st.element_count then INVALID_ELEMENT_ID
  else lrGo (List.range st.element_count) 0
where
  lrGo : List Nat → Nat → Nat
    | [], _ => INVALID_ELEMENT_ID
    | i :: is, row =>
        if (elemAt st i).parent_id = list_eid ∧
            (elemAt st i).type = ELEMENT_TEXT ∧
            protocol_is_element_visible st i then
          if i = text_eid then row else lrGo is (row + 1)
        else lrGo is row

/-- text_inline_barrel_id: first BARREL child. -/
def text_inline_barrel_id (st : ProtocolState) (text_eid : Nat) : Nat :=
  match (List.range st.element_count).find?
    (fun eid => (elemAt st eid).parent_id == text_eid &&
      (elemAt st eid).type == ELEMENT_BARREL) with
  | some eid => eid
  | none => INVALID_ELEMENT_ID

/-- Shorthand for writing a list-state mutation back into the protocol
state (pointer write-back, see ur_list_update). -/
def withListState (st : ProtocolState) (id : Nat)
    (f : UrListState → UrListState) : ProtocolState :=
  { st with runtime := ur_list_update st.runtime id f }

/-! ## ui_input.c -/

/-- list_effective_window: desired rows bounded by the panel cap and by
the rows that fit below the list's y position. -/
def list_effective_window (st : ProtocolState) (list_eid : Nat)
    (state : Option UrListState) : Nat :=
  let desired :=
    match state with
    | some s => if s.visible_rows ≠ 0 then s.visible_rows else 4
    | none => 4
  let display_h := SSD1306_HEIGHT
  let max_rows := if display_h ≥ 64 then 8 else 6
  let desired := if desired > max_rows then max_rows else desired
  match ui_attr_get_position st list_eid with
  | none => desired
  | some (_, py) =>
      -- layout is always LAYOUT_ABSOLUTE in this firmware
      if display_h ≤ py then 1
      else
        let avail := (display_h - py) / SSD1306_PAGE_HEIGHT
        let avail := if avail = 0 then 1 else avail
        if desired > avail then avail else desired

def protocol_edit_blink_start (st : ProtocolState) : ProtocolState :=
  { st with edit_blink_active := 1, edit_blink_phase := 1,
            edit_blink_counter := 0 }

def protocol_edit_blink_any_active (st : ProtocolState) : Bool :=
  (List.range st.element_count).any
    (fun i => (elemAt st i).type == ELEMENT_BARREL && barrel_is_editing st i)

def protocol_edit_blink_stop_if_unused (st : ProtocolState) : ProtocolState :=
  if st.edit_blink_active = 0 then st
  else if protocol_edit_blink_any_active st then st
  else { st with edit_blink_active := 0, edit_blink_phase := 1,
                 edit_blink_counter := 0 }

/-- barrel_begin_edit: aux := 0x80 | (snapshot & 0x7F). -/
def barrel_begin_edit (st : ProtocolState) (eid : Nat) : ProtocolState :=
  if eid ≥ st.element_count then st
  else
    let cur := protocol_numeric_value st eid
    let snap : Nat := if cur < 0 then 0 else (cur.toNat % 256)
    let st1 := numeric_set_aux st eid (128 + snap % 128)
    protocol_edit_blink_start st1

/-- barrel_cancel_edit: restore snapshot into value, clear edit bit. -/
def barrel_cancel_edit (st : ProtocolState) (eid : Nat) : ProtocolState :=
  if eid ≥ st.element_count then st
  else
    let snap := protocol_numeric_aux st eid % 128
    let st1 := numeric_set_value st eid (snap : Int)
    numeric_set_aux st1 eid snap

/-- barrel_commit_edit: aux := committed value & 0x7F. -/
def barrel_commit_edit (st : ProtocolState) (eid : Nat) : ProtocolState :=
  if eid ≥ st.element_count then st
  else
    let v := protocol_numeric_value st eid
    let cur : Nat := if v < 0 then 0 else (v.toNat % 128)
    let st1 := numeric_set_aux st eid (cur % 128)
    protocol_edit_blink_stop_if_unused st1

/-- barrel_options_count: TEXT children of the barrel. -/
def barrel_options_count (st : ProtocolState) (barrel_id : Nat) : Nat :=
  (List.range st.element_count).countP
    (fun i => (elemAt st i).parent_id = barrel_id ∧
      (elemAt st i).type = ELEMENT_TEXT)

inductive UiAction where
  | up | down | left | right | ok | back | invalid
deriving DecidableEq, Repr

def ui_action_from_button (button : Nat) : UiAction :=
  if button = UI_BUTTON_UP then .up
  else if button = UI_BUTTON_DOWN then .down
  else if button = UI_BUTTON_LEFT then .left
  else if button = UI_BUTTON_RIGHT then .right
  else if button = UI_BUTTON_OK then .ok
  else if button = UI_BUTTON_BACK then .back
  else .invalid

inductive UiFocusKind where
  | none | list | barrel | trigger | other
deriving DecidableEq, Repr

def ui_focus_kind_from_element (st : ProtocolState) (focused_id : Nat) :
    UiFocusKind × Bool :=
  if focused_id = INVALID_ELEMENT_ID ∨ focused_id ≥ st.element_count then
    (.none, false)
  else
    let t := (elemAt st focused_id).type
    if t = ELEMENT_LIST_VIEW then (.list, false)
    else if t = ELEMENT_BARREL then (.barrel, barrel_is_editing st focused_id)
    else if t = ELEMENT_TRIGGER then (.trigger, false)
    else (.other, false)

inductive UiNavCtx where
  | root | list | localScreen
deriving DecidableEq, Repr

def ui_nav_context (st : ProtocolState) : UiNavCtx × Nat :=
  if st.nav_depth = 0 then (.root, INVALID_ELEMENT_ID)
  else
    let top := st.nav_depth - 1
    if top ≥ NAV_STACK_MAX_DEPTH then (.root, INVALID_ELEMENT_ID)
    else
      let entry := st.nav_stack.getD top navStackDefault
      (if entry.type = NAV_CTX_LOCAL_SCREEN then .localScreen else .list,
        entry.target_element)

structure UiInputCtx where
  focused_id : Nat
  focus_kind : UiFocusKind
  barrel_editing : Bool
  nav_ctx : UiNavCtx
  nav_target : Nat

def ui_input_ctx_collect (st : ProtocolState) : UiInputCtx :=
  let fk := ui_focus_kind_from_element st st.focused_element
  let nc := ui_nav_context st
  { focused_id := st.focused_element, focus_kind := fk.1,
    barrel_editing := fk.2, nav_ctx := nc.1, nav_target := nc.2 }

/-- handle_screen_slide: LEFT/RIGHT start a slide at nav depth 0. -/
def handle_screen_slide (st : ProtocolState) (action : UiAction) :
    Bool × ProtocolState :=
  if st.nav_depth ≠ 0 then (false, st)
  else if action = .left then
    if st.active_screen = 0 then (true, st)
    else
      let active := if st.screen_anim.active ≠ 0 then
        st.screen_anim.to_screen else st.active_screen
      let target := active - 1
      let st1 := { st with
        screen_anim := { active := 1, from_screen := active,
                         to_screen := target, offset_px := 0, dir := -1 },
        scroll_x := (active : Int) * 128,
        active_screen := target }
      (true, protocol_clear_focus st1)
  else if action = .right then
    if (st.active_screen + 1) % 256 ≥ st.screen_count then (true, st)
    else
      let active := if st.screen_anim.active ≠ 0 then
        st.screen_anim.to_screen else st.active_screen
      let target := (active + 1) % 256
      let st1 := { st with
        screen_anim := { active := 1, from_screen := active,
                         to_screen := target, offset_px := 0, dir := 1 },
        scroll_x := (active : Int) * 128,
        active_screen := target }
      (true, protocol_clear_focus st1)
  else (false, st)

/-- list_move_cursor. -/
def list_move_cursor (st : ProtocolState) (list_id : Nat) (dir : Int) :
    ProtocolState :=
  match ur_list_get_or_add st.runtime list_id with
  | none => st
  | some (rt1, ls0) =>
      let st := { st with runtime := rt1 }
      let row_count := list_row_count st list_id
      if row_count = 0 then
        withListState st list_id (fun ls => { ls with cursor := 0, top_index := 0 })
      else
        let cursor := if ls0.cursor ≥ row_count then row_count - 1 else ls0.cursor
        let ls1 := { ls0 with cursor := cursor }
        let window := list_effective_window st list_id (some ls1)
        -- the window = 0 branch of the C code also clamps top_index;
        -- list_effective_window never returns 0, so it is dead code
        if dir < 0 then
          if ls1.anim_active = 0 ∧ cursor > 0 then
            let new_cursor := cursor - 1
            if new_cursor < ls1.top_index then
              let new_top := if ls1.top_index > 0 then ls1.top_index - 1 else 0
              withListState st list_id (fun _ =>
                { ls1 with anim_active := 1, anim_dir := -1, anim_pix := 0,
                           pending_cursor := new_cursor, pending_top := new_top })
            else
              withListState st list_id (fun _ => { ls1 with cursor := new_cursor })
          else withListState st list_id (fun _ => ls1)
        else
          if ls1.anim_active = 0 ∧ cursor + 1 < row_count then
            let new_cursor := cursor + 1
            if new_cursor ≥ ls1.top_index + window then
              withListState st list_id (fun _ =>
                { ls1 with anim_active := 1, anim_dir := 1, anim_pix := 0,
                           pending_cursor := new_cursor,
                           pending_top := ls1.top_index + 1 })
            else
              withListState st list_id (fun _ => { ls1 with cursor := new_cursor })
          else withListState st list_id (fun _ => ls1)

/-- list_selected_text: resolve the cursor row's text id (also clamps a
stale cursor, mirroring the in-place mutation). -/
def list_selected_text (st : ProtocolState) (list_id : Nat) :
    Option Nat × ProtocolState :=
  match ur_list_get_or_add st.runtime list_id with
  | none => (none, st)
  | some (rt1, ls0) =>
      let st := { st with runtime := rt1 }
      let row_count := list_row_count st list_id
      if row_count = 0 then
        (none, withListState st list_id
          (fun ls => { ls with cursor := 0, top_index := 0 }))
      else
        let cursor := if ls0.cursor ≥ row_count then row_count - 1 else ls0.cursor
        let st := withListState st list_id (fun ls => { ls with cursor := cursor })
        let child := list_child_by_index st list_id cursor
        if child = INVALID_ELEMENT_ID then (none, st)
        else (some child, st)

/-- list_find_nested_list: first LIST child of the text. -/
def list_find_nested_list (st : ProtocolState) (text_id : Nat) : Nat :=
  match (List.range st.element_count).find?
    (fun i => (elemAt st i).parent_id == text_id &&
      (elemAt st i).type == ELEMENT_LIST_VIEW) with
  | some i => i
  | none => INVALID_ELEMENT_ID

inductive ListRowAction where
  | none | inlineBarrel | nestedList | localScreen
deriving DecidableEq, Repr

/-- list_resolve_row_action. -/
def list_resolve_row_action (st : ProtocolState) (list_id : Nat) :
    ListRowAction × Nat × ProtocolState :=
  match list_selected_text st list_id with
  | (none, st1) => (.none, INVALID_ELEMENT_ID, st1)
  | (some text_id, st1) =>
      let inline_barrel := text_inline_barrel_id st1 text_id
      if inline_barrel ≠ INVALID_ELEMENT_ID then
        (.inlineBarrel, inline_barrel, st1)
      else
        let nested_list := list_find_nested_list st1 text_id
        if nested_list ≠ INVALID_ELEMENT_ID then
          (.nestedList, nested_list, st1)
        else
          let local_screen := protocol_text_local_screen st1 text_id
          if local_screen ≠ INVALID_ELEMENT_ID then
            (.localScreen, local_screen, st1)
          else (.none, INVALID_ELEMENT_ID, st1)

/-- barrel_focus_parent_list (restore_row selects the row-restoring
variant used by BACK). -/
def barrel_focus_parent_list (st : ProtocolState) (barrel_id : Nat)
    (restore_row : Bool) : ProtocolState :=
  let owning_list := element_parent_list st barrel_id
  let parent_text := (elemAt st barrel_id).parent_id
  if owning_list ≠ INVALID_ELEMENT_ID then
    let st1 := protocol_set_focus st owning_list
    if st1.focused_element = owning_list ∧ restore_row then
      match ur_list_get_or_add st1.runtime owning_list with
      | none => st1
      | some (rt1, ls0) =>
          let st2 := { st1 with runtime := rt1 }
          let row_count := list_row_count st2 owning_list
          let window := list_effective_window st2 owning_list (some ls0)
          let window := if window = 0 then 1 else window
          if row_count = 0 then
            withListState st2 owning_list (fun ls =>
              { ls with cursor := 0, top_index := 0, pending_top := 0,
                        pending_cursor := 0, anim_active := 0, anim_pix := 0,
                        anim_dir := 0 })
          else
            let target_row := list_row_index_of_text st2 owning_list parent_text
            let target_row :=
              if target_row = INVALID_ELEMENT_ID ∨ target_row ≥ row_count then
                row_count - 1
              else target_row
            let new_top :=
              if ls0.top_index > target_row then target_row
              else
                let upper_bound := ls0.top_index + window - 1
                if target_row > upper_bound then
                  let nt := target_row + 1 - window
                  if nt > target_row then target_row else nt
                else ls0.top_index
            withListState st2 owning_list (fun ls =>
              { ls with cursor := target_row, top_index := new_top,
                        pending_cursor := target_row, pending_top := new_top,
                        anim_active := 0, anim_pix := 0, anim_dir := 0 })
    else if st1.focused_element = INVALID_ELEMENT_ID then
      protocol_focus_first_on_screen st1 st1.active_screen
    else st1
  else
    let st1 := protocol_focus_first_on_screen st st.active_screen
    -- the trailing clear when still unfocused is the identity
    st1

/-- barrel_change_option: wrap modulo the option count while editing. -/
def barrel_change_option (st : ProtocolState) (barrel_id : Nat) (dir : Int) :
    ProtocolState :=
  let option_count := barrel_options_count st barrel_id
  if option_count = 0 then st
  else
    let current := protocol_numeric_value st barrel_id
    let index : Nat := if current < 0 then 0 else current.toNat % 256
    let index :=
      if dir < 0 then
        if index = 0 then option_count - 1 else index - 1
      else (index + 1) % option_count
    numeric_set_value st barrel_id (index : Int)

/-- list_handle_inline_barrel. -/
def list_handle_inline_barrel (st : ProtocolState) (barrel_id : Nat) :
    ProtocolState :=
  let st1 := protocol_set_focus st barrel_id
  if ¬ barrel_is_editing st1 barrel_id then barrel_begin_edit st1 barrel_id
  else
    let st2 := barrel_commit_edit st1 barrel_id
    let st3 := protocol_element_changed st2 barrel_id
    barrel_focus_parent_list st3 barrel_id false

/-- list_handle_ok. -/
def list_handle_ok (st : ProtocolState) (list_id : Nat) : ProtocolState :=
  match list_resolve_row_action st list_id with
  | (.inlineBarrel, target, st1) => list_handle_inline_barrel st1 target
  | (.nestedList, target, st1) => (nav_push_list st1 list_id target).2
  | (.localScreen, target, st1) => (nav_push_local_screen st1 list_id target).2
  | (_, _, st1) => st1

/-- handle_action_updown. -/
def handle_action_updown (st : ProtocolState) (ctx : UiInputCtx) (dir : Int) :
    ProtocolState :=
  if ctx.focus_kind = .list then list_move_cursor st ctx.focused_id dir
  else if ctx.focus_kind = .barrel ∧ ctx.barrel_editing then
    barrel_change_option st ctx.focused_id dir
  else if dir < 0 then protocol_focus_prev st
  else protocol_focus_next st

/-- handle_action_ok. -/
def handle_action_ok (st : ProtocolState) (ctx : UiInputCtx) : ProtocolState :=
  match ctx.focus_kind with
  | .none => protocol_focus_next st
  | .trigger =>
      (match ur_trigger_get_or_add st.runtime ctx.focused_id with
       | none => st
       | some (rt1, _) =>
           let rt2 := ur_trigger_update rt1 ctx.focused_id
             (fun t => { t with version := (t.version + 1) % 256 })
           protocol_element_changed { st with runtime := rt2 } ctx.focused_id)
  | .barrel =>
      if ¬ ctx.barrel_editing then barrel_begin_edit st ctx.focused_id
      else
        let st1 := barrel_commit_edit st ctx.focused_id
        let st2 := protocol_element_changed st1 ctx.focused_id
        barrel_focus_parent_list st2 ctx.focused_id false
  | .list => list_handle_ok st ctx.focused_id
  | .other => st

/-- handle_action_back. -/
def handle_action_back (st : ProtocolState) (ctx : UiInputCtx) : ProtocolState :=
  let hs : Bool × ProtocolState :=
    match ctx.focus_kind with
    | .barrel =>
        let st1 := if ctx.barrel_editing then
          barrel_cancel_edit st ctx.focused_id else st
        (true, barrel_focus_parent_list st1 ctx.focused_id true)
    | .list =>
        if ctx.nav_ctx = .list ∧ ctx.nav_target = ctx.focused_id then
          let (popped, st1) := nav_pop st
          if popped = 0 then (true, protocol_clear_focus st1) else (true, st1)
        else (true, st)
    | .trigger =>
        let owning_list := element_parent_list st ctx.focused_id
        if owning_list ≠ INVALID_ELEMENT_ID then
          (true, protocol_set_focus st owning_list)
        else (false, st)
    | .other =>
        let owning_list := element_parent_list st ctx.focused_id
        if owning_list ≠ INVALID_ELEMENT_ID then
          (true, protocol_set_focus st owning_list)
        else (false, st)
    | .none => (false, st)
  let handled := hs.1
  let st1 := hs.2
  if handled then st1
  else if ctx.nav_ctx ≠ .root then
    let (popped, st2) := nav_pop st1
    if popped = 0 then protocol_clear_focus st2 else st2
  else if ctx.focused_id ≠ INVALID_ELEMENT_ID then st1
  else
    let st2 := protocol_focus_first_on_screen st1 st1.active_screen
    -- the trailing clear when still unfocused is the identity
    st2

/-- process_button_release (the weak UP hook is a no-op). -/
def process_button_release (st : ProtocolState) (button : Nat) : ProtocolState :=
  let action := ui_action_from_button button
  if action = .invalid then st
  else if st.screen_anim.active ≠ 0 then st
  else if action = .left ∨ action = .right then
    (handle_screen_slide st action).2
  else
    let ctx := ui_input_ctx_collect st
    match action with
    | .up => handle_action_updown st ctx (-1)
    | .down => handle_action_updown st ctx 1
    | .ok => handle_action_ok st ctx
    | .back => handle_action_back st ctx
    | _ => st

/-- cmd_input_event: [index, event]; only release (0) is processed; a
masking overlay lets only OK through.  The Bool is the render request. -/
def cmd_input_event (st : ProtocolState) (payload : List Nat) :
    Res × ProtocolState × Bool :=
  match payload with
  | idx :: evt :: _ =>
      if idx ≥ UI_BUTTON_COUNT then (.range, st, false)
      else if st.overlay.active_overlay_screen_id ≠ 0xFF ∧
          st.overlay.mask_input ≠ 0 ∧ idx ≠ UI_BUTTON_OK then
        (.ok, st, false)
      else if evt = 0 then
        (.ok, process_button_release st idx, true)
      else (.ok, st, false)
  | _ => (.badLen, st, false)

/-! ## ui_protocol.c: remaining commands (protocol-state level) -/

/-- cmd_set_active_screen. -/
def cmd_set_active_screen (st : ProtocolState) (payload : List Nat) :
    Res × ProtocolState :=
  match payload with
  | [sid] =>
      if sid ≥ st.screen_count then (.range, st)
      else
        let anim : ScreenAnimState :=
          { active := 0, offset_px := 0, dir := 0,
            from_screen := sid, to_screen := sid }
        let st1 := { st with active_screen := sid
                             scroll_x := (sid : Int) * (SSD1306_WIDTH : Int)
                             screen_anim := anim }
        (.ok, protocol_focus_first_on_screen st1 sid)
  | _ => (.badLen, st)

/-- The response payload built by cmd_get_status (RC, flags, counts,
active ordinal, version, dirty id, three reserved zeros). -/
def get_status_payload (st : ProtocolState) : List Nat :=
  let flags :=
    (if st.initialized then STATUS_FLAG_INITIALIZED else 0) +
    (if st.status_dirty then STATUS_FLAG_DIRTY else 0) +
    (if st.overlay.active_overlay_screen_id ≠ 0xFF then STATUS_FLAG_OVERLAY else 0)
  [RC_OK, flags, st.element_count, st.screen_count, st.active_screen,
   st.protocol_version,
   if st.status_dirty then st.status_dirty_id else INVALID_ELEMENT_ID,
   0, 0, 0]

/-- The state clearing performed after cmd_get_status sends its
response: dirty flag and dirty id are reset. -/
def get_status_clear (st : ProtocolState) : ProtocolState :=
  { st with status_dirty := false, status_dirty_id := INVALID_ELEMENT_ID }

/-- cmd_scroll_to_screen: 1-byte ordinal snap or 3-byte offset form;
both are ignored during a slide animation. -/
def cmd_scroll_to_screen (st : ProtocolState) (payload : List Nat) :
    Res × ProtocolState :=
  match payload with
  | [sid] =>
      if st.screen_anim.active ≠ 0 then (.ok, st)
      else if sid ≥ st.screen_count then (.range, st)
      else (.ok, { st with active_screen := sid,
                           scroll_x := (sid : Int) * 128 })
  | [lo, hi, sid] =>
      if st.screen_anim.active ≠ 0 then (.ok, st)
      else if sid ≥ st.screen_count then (.range, st)
      else
        -- int16 off = p[0] | (p[1] << 8)
        let raw := lo % 256 + (hi % 256) * 256
        let off : Int := if raw ≥ 32768 then (raw : Int) - 65536 else (raw : Int)
        let max_off : Int := ((st.screen_count : Int) - 1) * (SSD1306_WIDTH : Int)
        let off := if off < 0 then 0 else off
        let off := if off > max_off then max_off else off
        (.ok, { st with active_screen := sid, scroll_x := off })
  | _ => (.badLen, st)

/-- cmd_show_overlay: requires an existing SCREEN with overlay role
FULL; duration defaults to 1200 ms; flags bit 0 masks input.  The Bool
is the render request. -/
def cmd_show_overlay (st : ProtocolState) (payload : List Nat) :
    Res × ProtocolState × Bool :=
  if payload.length < 1 then (.badLen, st, false)
  else
    let sid := payload.headD 0
    let dur :=
      if payload.length ≥ 3 then
        let d := payload.getD 1 0 % 256 + (payload.getD 2 0 % 256) * 256
        if d = 0 then 1 else d
      else 1200
    let mask :=
      if payload.length ≥ 4 then
        if payload.getD 3 0 % 2 = 1 then 1 else 0
      else 0
    if sid ≥ st.element_count then (.unknownId, st, false)
    else if (elemAt st sid).type ≠ ELEMENT_SCREEN then (.badState, st, false)
    else if protocol_screen_role st sid ≠ OVERLAY_FULL then (.badState, st, false)
    else
      let st1 := { st with overlay :=
        { active_overlay_screen_id := sid, remaining_ms := dur,
          mask_input := mask, prev_focus := st.focused_element } }
      (.ok, protocol_clear_focus st1, true)

/-- Two's-complement uint16 image of an int16 value (response wire
encoding of a barrel value). -/
def int16ToU16 (v : Int) : Nat := ((v % 65536 + 65536) % 65536).toNat

/-- The response payload of cmd_get_element_state for a valid id. -/
def get_element_state_payload (st : ProtocolState) (eid : Nat) :
    Option (List Nat) :=
  if eid ≥ st.element_count then none
  else
    let ty := (elemAt st eid).type
    if ty = ELEMENT_TEXT then
      let t := (ui_attr_get_text st eid).getD []
      -- uint8 l clamped so that l + 3 fits the 13-byte out buffer
      let l := min t.length 10
      some ([RC_OK, ty, l] ++ t.take l)
    else if ty = ELEMENT_TRIGGER then
      match ur_trigger_find st.runtime eid with
      | some ts => some [RC_OK, ty, ts.version]
      | none => none      -- RES_RANGE path, no response payload
    else if ty = ELEMENT_BARREL then
      let v := int16ToU16 (protocol_numeric_value st eid)
      some [RC_OK, ty, v % 256, v / 256]
    else some [RC_OK, ty, 0xFF]

/-! ## Transport layer: RX framing, TX path, dispatcher
(ui_protocol.c globals plus spi_slave_dma contract)

`World` collects the protocol state with the volatile globals around
it.  The DMA hardware is reduced to its contract: tx_dma_idle is what
spi_slave_tx_dma_is_complete() returns, and every frame handed to
spi_slave_tx_dma_start is recorded in `sent` in order. -/

inductive RxPhase where
  | waitSync0 | waitSync1 | waitLen | collectCobs
deriving DecidableEq, Repr

structure RxState where
  phase : RxPhase
  enc_buf : List Nat
  frame_len : Nat
  frame_ready : Bool
  overrun : Bool
deriving DecidableEq, Repr

def rx_init : RxState :=
  { phase := .waitSync0, enc_buf := [], frame_len := 0,
    frame_ready := false, overrun := false }

/-- spi_rx_reset (does not touch frame_ready). -/
def spi_rx_reset (rx : RxState) : RxState :=
  { rx with enc_buf := [], frame_len := 0, phase := .waitSync0 }

/-- ui_spi_rx_irq for one received byte (the OVR branch is driven by
the `overrun` input standing for the hardware flag). -/
def ui_spi_rx_irq (rx : RxState) (b : Nat) : RxState :=
  if rx.frame_ready then rx
  else
    match rx.phase with
    | .waitSync0 =>
        if b = SPI_RESP_SYNC0 then { rx with phase := .waitSync1 } else rx
    | .waitSync1 =>
        if b = SPI_RESP_SYNC1 then { rx with phase := .waitLen }
        else { rx with phase := .waitSync0 }
    | .waitLen =>
        let rx := { rx with frame_len := b, enc_buf := [] }
        if 0 < b ∧ b ≤ 112 then { rx with phase := .collectCobs }
        else { rx with phase := .waitSync0 }
    | .collectCobs =>
        if rx.enc_buf.length < 112 then
          let rx := { rx with enc_buf := rx.enc_buf ++ [b] }
          if rx.enc_buf.length ≥ rx.frame_len then
            { rx with frame_ready := true, phase := .waitSync0 }
          else rx
        else { rx with phase := .waitSync0, overrun := true }

structure World where
  ps : ProtocolState
  render_requested : Bool
  request_standby : Bool
  rx : RxState
  tx_queue : List Nat
  tx_queue_pending : Bool
  tx_dma_idle : Bool
  sent : List (List Nat)
deriving Repr

def world_init : World :=
  { ps := protocol_init, render_requested := false,
    request_standby := false, rx := rx_init, tx_queue := [],
    tx_queue_pending := false, tx_dma_idle := true, sent := [] }

/-- protocol_send_response: [SYNC0][SYNC1][enc_len][COBS(payload)];
starts the DMA immediately when idle, else queues the single slot. -/
def protocol_send_response (w : World) (_cmd : Nat) (payload : List Nat) :
    Res × World :=
  match cobs_encode payload (SPI_BUFFER_SIZE - 3) with
  | none => (.internal, w)
  | some enc =>
      let frame := [SPI_RESP_SYNC0, SPI_RESP_SYNC1, enc.length] ++ enc
      if w.tx_queue_pending then (.badState, w)
      else if ¬ w.tx_dma_idle then
        if frame.length > SPI_TX_QUEUE_SIZE then (.badLen, w)
        else (.ok, { w with tx_queue := frame, tx_queue_pending := true })
      else
        (.ok, { w with sent := w.sent ++ [frame], tx_dma_idle := false })

/-- protocol_tx_process_queue. -/
def protocol_tx_process_queue (w : World) : World :=
  if ¬ w.tx_queue_pending then w
  else if ¬ w.tx_dma_idle then w
  else { w with sent := w.sent ++ [w.tx_queue], tx_dma_idle := false,
                tx_queue := [], tx_queue_pending := false }

/-- cmd_ping: [RC_OK, version, caps_lo, caps_hi]. -/
def cmd_ping (w : World) (payload : List Nat) : Res × World :=
  if payload.length ≠ 0 then (.badLen, w)
  else
    let out := [RC_OK, w.ps.protocol_version % 256,
                w.ps.capabilities % 256, w.ps.capabilities / 256 % 256]
    let (_, w1) := protocol_send_response w SPI_CMD_PING out
    (.respSent, w1)

/-- cmd_get_status at the transport level: send the payload, then clear
the dirty state. -/
def cmd_get_status (w : World) (_payload : List Nat) : Res × World :=
  let out := get_status_payload w.ps
  let (_, w1) := protocol_send_response w SPI_CMD_GET_STATUS out
  (.respSent, { w1 with ps := get_status_clear w1.ps })

/-- cmd_get_element_state at the transport level. -/
def cmd_get_element_state (w : World) (payload : List Nat) : Res × World :=
  match payload with
  | [eid] =>
      match get_element_state_payload w.ps eid with
      | some out =>
          let (_, w1) := protocol_send_response w SPI_CMD_GET_ELEMENT_STATE out
          (.respSent, w1)
      | none =>
          if eid ≥ w.ps.element_count then (.unknownId, w)
          else (.range, w)    -- trigger without runtime node
  | _ => (.badLen, w)

/-- cmd_goto_standby: raise the standby flag, send nothing. -/
def cmd_goto_standby (w : World) (payload : List Nat) : Res × World :=
  if payload.length = 0 then (.respSent, { w with request_standby := true })
  else (.respSent, w)

/-- handle_binary_command: the command dispatcher. -/
def handle_binary_command (w : World) (cmd : Nat) (payload : List Nat) :
    Res × World :=
  if cmd = SPI_CMD_PING then cmd_ping w payload
  else if cmd = SPI_CMD_JSON then
    let (res, ps1, ren) := cmd_json w.ps payload
    (res, { w with ps := ps1, render_requested := w.render_requested ∨ ren })
  else if cmd = SPI_CMD_JSON_ABORT then
    let (res, ps1) := cmd_json_abort w.ps
    (res, { w with ps := ps1 })
  else if cmd = SPI_CMD_SET_ACTIVE_SCREEN then
    let (res, ps1) := cmd_set_active_screen w.ps payload
    (res, { w with ps := ps1 })
  else if cmd = SPI_CMD_GET_STATUS then cmd_get_status w payload
  else if cmd = SPI_CMD_SCROLL_TO_SCREEN then
    let (res, ps1) := cmd_scroll_to_screen w.ps payload
    (res, { w with ps := ps1 })
  else if cmd = SPI_CMD_GET_ELEMENT_STATE then cmd_get_element_state w payload
  else if cmd = SPI_CMD_SHOW_OVERLAY then
    let (res, ps1, ren) := cmd_show_overlay w.ps payload
    (res, { w with ps := ps1, render_requested := w.render_requested ∨ ren })
  else if cmd = SPI_CMD_INPUT_EVENT then
    let (res, ps1, ren) := cmd_input_event w.ps payload
    (res, { w with ps := ps1, render_requested := w.render_requested ∨ ren })
  else if cmd = SPI_CMD_GOTO_STANDBY then cmd_goto_standby w payload
  else (.badLen, w)

/-- protocol_service_deferred_ops: drop overrun frames, drain the TX
queue, decode and dispatch a ready frame (auto-answering with the RC of
the handler unless it already sent a response), drain the queue again. -/
def protocol_service_deferred_ops (w : World) : World :=
  let w :=
    if w.rx.overrun then
      { w with rx := { (spi_rx_reset w.rx) with frame_ready := false,
                                                overrun := false } }
    else w
  let w := protocol_tx_process_queue w
  let w :=
    if w.rx.frame_ready then
      let w1 :=
        match cobs_decode w.rx.enc_buf SPI_BUFFER_SIZE with
        | some (command :: payload) =>
            -- dec >= 1 (and dec <= SPI_BUFFER_SIZE by construction)
            let (cmd_result, w1) := handle_binary_command w command payload
            if cmd_result ≠ .respSent then
              let rc := protocol_map_result_to_rc cmd_result
              (protocol_send_response w1 command [rc]).2
            else w1
        | _ => w    -- dec = 0: decode error or empty frame
      { w1 with rx := { (spi_rx_reset w1.rx) with frame_ready := false } }
    else w
  protocol_tx_process_queue w

/-- Feed a byte sequence through the RX interrupt handler. -/
def rxFeed (rx : RxState) (bytes : List Nat) : RxState :=
  bytes.foldl ui_spi_rx_irq rx

/-! ## ssd1306_driver.c: async render engine

The low-level chunked DMA transfer keeps only its control fields (the
byte buffers do not influence control flow).  The environment of one
main-loop tick supplies i2c_tx_dma_busy() and whether i2c_write_raw_dma
succeeds.  ssd1306_set_addr goes through the blocking helper and
completes within the stage, so it does not appear in the transfer
state. -/

def I2C_BUFFER_LIMIT : Nat := 28

structure XferState where
  active : Bool
  control : Nat
  total_len : Nat
  sent : Nat
deriving DecidableEq, Repr

structure AsyncState where
  active : Bool
  page : Nat
  stage : Nat
  rerender_pending : Bool
deriving DecidableEq, Repr

def SSD1306_ASYNC_STAGE_ADDR : Nat := 0
def SSD1306_ASYNC_STAGE_BUILD : Nat := 1
def SSD1306_ASYNC_STAGE_STREAM_START : Nat := 2
def SSD1306_ASYNC_STAGE_STREAMING : Nat := 3

structure RenderEnv where
  i2c_busy : Bool
  write_ok : Bool
deriving DecidableEq, Repr

/-- ssd1306_dma_xfer_start. -/
def ssd1306_dma_xfer_start (control : Nat) (len : Nat) : XferState :=
  { active := true, control := control, total_len := len, sent := 0 }

/-- ssd1306_dma_xfer_process: progress one chunk when the bus is free;
a write error aborts the transfer. -/
def ssd1306_dma_xfer_process (x : XferState) (env : RenderEnv) : XferState :=
  if ¬ x.active then x
  else if env.i2c_busy then x
  else if x.sent ≥ x.total_len then { x with active := false }
  else
    let remaining := x.total_len - x.sent
    let chunk := if remaining > I2C_BUFFER_LIMIT then I2C_BUFFER_LIMIT else remaining
    if ¬ env.write_ok then { x with active := false }
    else { x with sent := x.sent + chunk }

/-- ssd1306_render_async_busy. -/
def ssd1306_render_async_busy (a : AsyncState) : Bool := a.active

/-- ssd1306_render_async_request_rerender: only sets the flag while a
frame is active. -/
def ssd1306_render_async_request_rerender (a : AsyncState) : AsyncState :=
  if a.active then { a with rerender_pending := true } else a

/-- ssd1306_render_async_begin. -/
def ssd1306_render_async_begin (a : AsyncState) : Res × AsyncState :=
  if a.active then (.badState, a)
  else (.ok, { active := true, page := 0, stage := SSD1306_ASYNC_STAGE_ADDR,
               rerender_pending := false })

/-- ssd1306_render_async_start_or_request: 0 = started, 1 = coalesced. -/
def ssd1306_render_async_start_or_request (a : AsyncState) : Nat × AsyncState :=
  if ¬ ssd1306_render_async_busy a then
    let (_, a1) := ssd1306_render_async_begin a
    (0, a1)
  else (1, ssd1306_render_async_request_rerender a)

/-- ssd1306_render_async_process for one main-loop tick.  `pages` is
g_pages.  The returned Bool reports that this tick completed the last
page and immediately restarted a coalesced rerender frame. -/
def ssd1306_render_async_process (pages : Nat) (a : AsyncState) (x : XferState)
    (env : RenderEnv) : (AsyncState × XferState) × Bool :=
  if ¬ a.active then ((a, x), false)
  else
    let x := ssd1306_dma_xfer_process x env
    if a.stage = SSD1306_ASYNC_STAGE_ADDR then
      if env.i2c_busy then ((a, x), false)
      else
        -- set_addr runs through the blocking helper and finishes here
        (({ a with stage := SSD1306_ASYNC_STAGE_BUILD }, x), false)
    else if a.stage = SSD1306_ASYNC_STAGE_BUILD then
      if env.i2c_busy then ((a, x), false)
      else
        -- clear the shared buffer and run the page render callback
        (({ a with stage := SSD1306_ASYNC_STAGE_STREAM_START }, x), false)
    else if a.stage = SSD1306_ASYNC_STAGE_STREAM_START then
      if env.i2c_busy then ((a, x), false)
      else
        (({ a with stage := SSD1306_ASYNC_STAGE_STREAMING },
          ssd1306_dma_xfer_start 0x40 SSD1306_WIDTH), false)
    else if a.stage = SSD1306_ASYNC_STAGE_STREAMING then
      if x.active then ((a, x), false)
      else
        let page := a.page + 1
        if page ≥ pages then
          if a.rerender_pending then
            (({ active := true, page := 0, stage := SSD1306_ASYNC_STAGE_ADDR,
                rerender_pending := false }, x), true)
          else (({ a with active := false, page := page }, x), false)
        else
          (({ a with page := page, stage := SSD1306_ASYNC_STAGE_ADDR }, x), false)
    else
      (({ a with active := false }, x), false)

/-- Run the engine over a sequence of tick environments, counting the
coalesced-rerender restarts. -/
def renderRun (pages : Nat) : AsyncState × XferState → List RenderEnv →
    (AsyncState × XferState) × Nat
  | s, [] => (s, 0)
  | (a, x), env :: envs =>
      let (s1, restarted) := ssd1306_render_async_process pages a x env
      let (s2, n) := renderRun pages s1 envs
      (s2, (if restarted then 1 else 0) + n)

/-! ## Arena operation machine (claim C1)

The operations that consume arena bytes, as issued by the protocol
layer: header reservation, attribute appends, element slots, and the
tail node allocations of the three get_or_add stores.  Each step applies
the corresponding source function.  Every call site of a get_or_add
passes an element id below element_count (numeric_store checks it
explicitly; the other callers pass ids found by scans bounded by
element_count), which `ArenaOpGuard` records. -/

inductive ArenaOp where
  | reserve (n : Nat)
  | appendAttr (element_id : Nat) (entry : AttrEntry)
  | addElement (parent ty : Nat) (x y : Int)
  | allocList (element_id : Nat)
  | allocBarrel (element_id : Nat)
  | allocTrigger (element_id : Nat)
  | commit
  | headReset

inductive ArenaStepRes where
  | ok
  | noSpace
  | otherFail
deriving DecidableEq, Repr

def resToArena : Res → ArenaStepRes
  | .ok => .ok
  | .noSpace => .noSpace
  | _ => .otherFail

/-- One arena operation, dispatching to the source functions. -/
def arena_step (st : ProtocolState) : ArenaOp → ArenaStepRes × ProtocolState
  | .reserve n =>
      let (r, st1) := protocol_reserve_element_storage st n
      (resToArena r, st1)
  | .appendAttr eid entry =>
      let (r, st1) := ui_attr_append st eid entry
      (resToArena r, st1)
  | .addElement parent ty x y =>
      let (id, st1) := add_basic_element st parent ty x y
      (if id = 0xFF then .otherFail else .ok, st1)
  | .allocList eid =>
      match ur_list_get_or_add st.runtime eid with
      | none => (.noSpace, st)
      | some (rt1, _) => (.ok, { st with runtime := rt1 })
  | .allocBarrel eid =>
      match ur_barrel_get_or_add st.runtime eid with
      | none => (.noSpace, st)
      | some (rt1, _) => (.ok, { st with runtime := rt1 })
  | .allocTrigger eid =>
      match ur_trigger_get_or_add st.runtime eid with
      | none => (.noSpace, st)
      | some (rt1, _) => (.ok, { st with runtime := rt1 })
  | .commit => (.ok, { st with initialized := true })
  | .headReset => (.ok, protocol_reset_state)

def arena_run (st : ProtocolState) (ops : List ArenaOp) : ProtocolState :=
  ops.foldl (fun s op => (arena_step s op).2) st

/-- The caller-side guard at every tail-allocation site: the element id
was validated against element_count. -/
def ArenaOpGuard (st : ProtocolState) : ArenaOp → Prop
  | .allocList eid => eid < st.element_count
  | .allocBarrel eid => eid < st.element_count
  | .allocTrigger eid => eid < st.element_count
  | _ => True

/-- A trace of arena operations in which every step satisfies the
caller-side guard at its own state. -/
inductive ArenaOpsGuarded : ProtocolState → List ArenaOp → Prop
  | nil (st : ProtocolState) : ArenaOpsGuarded st []
  | cons (st : ProtocolState) (op : ArenaOp) (ops : List ArenaOp)
      (hg : ArenaOpGuard st op)
      (hrest : ArenaOpsGuarded (arena_step st op).2 ops) :
      ArenaOpsGuarded st (op :: ops)

/-- The arena book-keeping invariant of the spec: total bytes consumed
within capacity. -/
def arenaInv (st : ProtocolState) : Prop :=
  st.runtime.head_used + st.runtime.used_tail ≤ UI_ATTR_ARENA_CAP

/-- Strengthened induction invariant. -/
def arenaInvStrong (st : ProtocolState) : Prop :=
  arenaInv st ∧ st.element_count ≤ st.element_capacity ∧
    (st.element_capacity = 0 →
      st.runtime.head_used = 0 ∧ st.runtime.used_tail = 0)

/-! ## Proof-side helper definitions and concrete states -/

/-- Block-structure characterisation of the COBS encoder output for
short inputs (every block below 254 data bytes): `D` is the data of the
open block.  Used to relate cobsEncodeLoop and cobsDecodeLoop. -/
def cobsSpecAux : List Nat → List Nat → List Nat
  | D, [] => (D.length + 1) :: D
  | D, b :: rest =>
      if b = 0 then ((D.length + 1) :: D) ++ cobsSpecAux [] rest
      else cobsSpecAux (D ++ [b]) rest

/-- Fresh slave with the S1 ping request frame already received. -/
def pingWorld : World :=
  { world_init with rx := rxFeed world_init.rx [0xA5, 0x5A, 0x02, 0x02, 0x00] }

/-- The JSON descriptor bytes used in concrete protocol runs. -/
def descHeader1 : List Nat :=
  1 :: (String.toList "\x7b\"t\":\"h\",\"n\":1\x7d").map Char.toNat
def descScreen : List Nat :=
  0 :: (String.toList "\x7b\"t\":\"s\"\x7d").map Char.toNat
def descTextA : List Nat :=
  0 :: (String.toList "\x7b\"t\":\"t\",\"x\":0,\"y\":0,\"tx\":\"A\"\x7d").map Char.toNat

/-- State after header n=1 and one screen: the single element slot is
used up. -/
def c3SlotState : ProtocolState :=
  (cmd_json (cmd_json protocol_init descHeader1).2.1 descScreen).2.1

/-- A provisioning state whose arena head is nearly full: capacity 2,
one screen present, 766 of 768 bytes consumed, so the text attribute of
the next element cannot be appended. -/
def c3ArenaState : ProtocolState :=
  { protocol_init with
      element_count := 1, element_capacity := 2,
      elements := [{ parent_id := 0xFF, type := ELEMENT_SCREEN },
                   { parent_id := 0xFF, type := 0xFF }],
      pos_x := [0, 0], pos_y := [0, 0],
      screen_count := 1,
      runtime := { ur_init with attr_base := 8, head_used := 766 } }

/-- Tree with a local screen between two base screens: ids 0 and 3 are
base screens, id 2 is a screen parented to text 1 (a local screen). -/
def cex4State : ProtocolState :=
  { protocol_init with
      element_count := 4, element_capacity := 4,
      elements := [{ parent_id := 0xFF, type := ELEMENT_SCREEN },
                   { parent_id := 0, type := ELEMENT_TEXT },
                   { parent_id := 1, type := ELEMENT_SCREEN },
                   { parent_id := 0xFF, type := ELEMENT_SCREEN }],
      pos_x := [0, 0, 0, 0], pos_y := [0, 0, 0, 0],
      screen_count := 2 }

/-- Two plain base screens (for the C4 witness). -/
def baseOnlyState : ProtocolState :=
  { protocol_init with
      element_count := 2, element_capacity := 2,
      elements := [{ parent_id := 0xFF, type := ELEMENT_SCREEN },
                   { parent_id := 0xFF, type := ELEMENT_SCREEN }],
      pos_x := [0, 0], pos_y := [0, 0],
      screen_count := 2 }

/-- Screen 0 with list 1, row text 2, a local screen 3 under the row
and a text 4 on the local screen (nothing focusable under screen 3). -/
def cex5State : ProtocolState :=
  { protocol_init with
      element_count := 5, element_capacity := 5,
      elements := [{ parent_id := 0xFF, type := ELEMENT_SCREEN },
                   { parent_id := 0, type := ELEMENT_LIST_VIEW },
                   { parent_id := 1, type := ELEMENT_TEXT },
                   { parent_id := 2, type := ELEMENT_SCREEN },
                   { parent_id := 3, type := ELEMENT_TEXT }],
      pos_x := [0, 0, 0, 0, 0], pos_y := [0, 0, 0, 0, 0],
      screen_count := 1, focused_element := 1 }

/-- Screen 0 with list 1, row text 2, nested list 3 under the row and a
trigger 4 on the screen; the trigger is focused. -/
def cex6State : ProtocolState :=
  { protocol_init with
      element_count := 5, element_capacity := 5,
      elements := [{ parent_id := 0xFF, type := ELEMENT_SCREEN },
                   { parent_id := 0, type := ELEMENT_LIST_VIEW },
                   { parent_id := 1, type := ELEMENT_TEXT },
                   { parent_id := 2, type := ELEMENT_LIST_VIEW },
                   { parent_id := 0, type := ELEMENT_TRIGGER }],
      pos_x := [0, 0, 0, 0, 0], pos_y := [0, 0, 0, 0, 0],
      screen_count := 1, focused_element := 4 }

/-- Screen 0 with barrel 1 whose runtime node exists (for C10). -/
def c10Runtime : UiRuntime :=
  { ur_init with attr_base := 8, head_used := 8,
                 used_tail := sizeof_ur_barrel_node,
                 barrels := [{ element_id := 1, aux := 0, value := 0 }] }

def c10State : ProtocolState :=
  { protocol_init with
      element_count := 2, element_capacity := 2,
      elements := [{ parent_id := 0xFF, type := ELEMENT_SCREEN },
                   { parent_id := 0, type := ELEMENT_BARREL }],
      pos_x := [0, 0], pos_y := [0, 0],
      screen_count := 1, runtime := c10Runtime }

def c1Ops : List ArenaOp :=
  [ArenaOp.reserve 4, ArenaOp.addElement 0xFF ELEMENT_SCREEN 0 0,
   ArenaOp.allocBarrel 0, ArenaOp.commit]

def c6ps : UrListState :=
  { element_id := 1, cursor := 0, top_index := 0, visible_rows := 4,
    anim_active := 0, anim_dir := 0, anim_pix := 0, pending_top := 0,
    pending_cursor := 0, last_text_child := INVALID_ELEMENT_ID }

def c6cs : UrListState :=
  { c6ps with element_id := 3 }

def c6rt1 : UiRuntime :=
  { ur_init with used_tail := sizeof_ur_list_node, lists := [c6ps] }

def c6rt2 : UiRuntime :=
  { ur_init with used_tail := sizeof_ur_list_node + sizeof_ur_list_node, lists := [c6cs, c6ps] }

/-! # Theorems -/

/-! ## Generic lemmas about the write-back helpers -/

theorem find_updateFirst {A : Type} (p : A → Bool) (f : A → A) (l : List A)
    (hf : ∀ x, p x = true → p (f x) = true) :
    (updateFirst p f l).find? p = (l.find? p).map f := by
  induction l with
  | nil => rfl
  | cons x xs ih =>
      simp only [updateFirst]
      by_cases hx : p x = true
      · rw [if_pos hx, List.find?_cons_of_pos _ (hf x hx),
            List.find?_cons_of_pos _ hx]
        rfl
      · rw [if_neg hx, List.find?_cons_of_neg _ hx,
            List.find?_cons_of_neg _ hx]
        exact ih

theorem find_updateFirst_ne {A : Type} (p q : A → Bool) (f : A → A) (l : List A)
    (hq : ∀ x, q (f x) = q x) (hpq : ∀ x, p x = true → q x = false) :
    (updateFirst p f l).find? q = l.find? q := by
  induction l with
  | nil => rfl
  | cons x xs ih =>
      simp only [updateFirst]
      by_cases hx : p x = true
      · have hqx : q x = false := hpq x hx
        rw [if_pos hx, List.find?_cons_of_neg _ (by simp [hq, hqx]),
            List.find?_cons_of_neg _ (by simp [hqx])]
      · rw [if_neg hx]
        by_cases hqx : q x = true
        · rw [List.find?_cons_of_pos _ hqx, List.find?_cons_of_pos _ hqx]
        · rw [List.find?_cons_of_neg _ hqx, List.find?_cons_of_neg _ hqx]
          exact ih

theorem ur_barrel_find_update (rt : UiRuntime) (id : Nat)
    (f : UrBarrelState → UrBarrelState)
    (hf : ∀ b, (f b).element_id = b.element_id) :
    ur_barrel_find (ur_barrel_update rt id f) id =
      (ur_barrel_find rt id).map f := by
  unfold ur_barrel_find ur_barrel_update
  exact find_updateFirst _ f rt.barrels (fun x hx => by
    simp only [hf]; exact hx)

theorem ur_list_find_update (rt : UiRuntime) (id : Nat)
    (f : UrListState → UrListState)
    (hf : ∀ s, (f s).element_id = s.element_id) :
    ur_list_find (ur_list_update rt id f) id = (ur_list_find rt id).map f := by
  unfold ur_list_find ur_list_update
  exact find_updateFirst _ f rt.lists (fun x hx => by
    simp only [hf]; exact hx)

theorem ur_list_find_update_ne (rt : UiRuntime) (id id2 : Nat) (hne : id2 ≠ id)
    (f : UrListState → UrListState)
    (hf : ∀ s, (f s).element_id = s.element_id) :
    ur_list_find (ur_list_update rt id f) id2 = ur_list_find rt id2 := by
  unfold ur_list_find ur_list_update
  refine find_updateFirst_ne _ _ f rt.lists (fun x => by simp [hf]) ?_
  intro x hx
  have hx2 : x.element_id = id := by simpa using hx
  simp [hx2, beq_eq_false_iff_ne, Ne, hne]
  omega

/-- What a successful ur_list_get_or_add guarantees: the state is found
in the result at this id, other ids and the attribute region are
untouched. -/
theorem ur_list_get_or_add_spec (rt : UiRuntime) (id : Nat)
    (rt1 : UiRuntime) (s : UrListState)
    (h : ur_list_get_or_add rt id = some (rt1, s)) :
    ur_list_find rt1 id = some s ∧ s.element_id = id ∧
      rt1.attrs = rt.attrs ∧ rt1.head_used = rt.head_used ∧
      (∀ id2, id2 ≠ id → ur_list_find rt1 id2 = ur_list_find rt id2) := by
  unfold ur_list_get_or_add at h
  cases hf : ur_list_find rt id with
  | some s0 =>
      rw [hf] at h
      cases h
      have hsid : s.element_id = id := by
        have := List.find?_some hf
        simpa using this
      exact ⟨hf, hsid, rfl, rfl, fun id2 _ => rfl⟩
  | none =>
      rw [hf] at h
      cases halloc : ur__alloc_tail rt sizeof_ur_list_node with
      | none => rw [halloc] at h; cases h
      | some rta =>
          rw [halloc] at h
          cases h
          unfold ur__alloc_tail at halloc
          split at halloc
          · cases halloc
          · cases halloc
            refine ⟨?_, rfl, rfl, rfl, ?_⟩
            · unfold ur_list_find
              exact List.find?_cons_of_pos _ (by simp)
            · intro id2 hne
              unfold ur_list_find
              rw [List.find?_cons_of_neg]
              · simp only [beq_iff_eq]
                omega

/-- Successful add_basic_element returns the old element count as the
new id, increments the count, and leaves the runtime arena untouched. -/
theorem add_basic_element_spec (st : ProtocolState) (parent ty : Nat)
    (x y : Int) (hcap0 : st.element_capacity ≠ 0)
    (hcnt : st.element_count < st.element_capacity) :
    (add_basic_element st parent ty x y).1 = st.element_count ∧
    (add_basic_element st parent ty x y).2.element_count =
      st.element_count + 1 ∧
    (add_basic_element st parent ty x y).2.runtime = st.runtime := by
  unfold add_basic_element
  rw [if_neg hcap0, if_neg (by omega)]
  dsimp only
  unfold ui_attr_store_position
  split_ifs <;> simp

/-! ## C2 — ping scenario S1 -/

/-- C2 counterexample: feeding the ping request frame
[A5 5A 02 02 00] to a fresh slave does NOT produce the frame
[A5 5A 05 05 00 01 00 00] stated in the claim; the slave's COBS encoder
emits the canonical encoding instead. -/
theorem ping_frame_c2_counterexample :
    (protocol_service_deferred_ops pingWorld).sent ≠
      [[0xA5, 0x5A, 0x05, 0x05, 0x00, 0x01, 0x00, 0x00]] := by decide

/-- C2 (amended): from a freshly initialized slave, the ping request
frame [A5 5A 02 02 00] produces exactly the response frame
[A5 5A 05 01 02 01 01 01]: a 5-byte byte-stuffed body whose COBS
decoding is [00 01 00 00], i.e. rc=OK, version=1, caps=0. -/
theorem ping_frame_c2 :
    (protocol_service_deferred_ops pingWorld).sent =
      [[0xA5, 0x5A, 0x05, 0x01, 0x02, 0x01, 0x01, 0x01]] ∧
    cobs_decode [0x01, 0x02, 0x01, 0x01, 0x01] SPI_BUFFER_SIZE =
      some [0x00, 0x01, 0x00, 0x00] := by decide

/-! ## C4 — screen ordinal lookup inverse -/

/-- C4 counterexample: in cex4State (base screens 0 and 3, local screen
2 under text 1), the 1st base screen is id 3, but
find_screen_ordinal_by_id maps 3 back to ordinal 2, not 1: the
counting loop of find_screen_ordinal_by_id also counts the local
screen, so the two functions are not inverse on trees containing local
screens. -/
theorem ordinal_inverse_c4_counterexample :
    find_screen_id_by_ordinal cex4State 1 = 3 ∧
    find_screen_ordinal_by_id cex4State 3 = 2 ∧ (2 : Nat) ≠ 1 := by decide

/-! ## C9 — rerender coalescing -/

theorem render_process_pending (pages : Nat) (a : AsyncState) (x : XferState)
    (env : RenderEnv) :
    ((ssd1306_render_async_process pages a x env).2 = true →
      a.rerender_pending = true ∧
      (ssd1306_render_async_process pages a x env).1.1.rerender_pending = false) ∧
    ((ssd1306_render_async_process pages a x env).2 = false →
      (ssd1306_render_async_process pages a x env).1.1.rerender_pending =
        a.rerender_pending) := by
  by_cases ha : a.active = true
  · unfold ssd1306_render_async_process
    rw [if_neg (not_not_intro ha)]
    generalize ssd1306_dma_xfer_process x env = x1
    split_ifs <;> (try simp_all) <;> (try split_ifs) <;>
      first
        | simp_all
        | omega
  · unfold ssd1306_render_async_process
    rw [if_pos (by simpa using ha)]
    simp

/-- C9: while a frame is active, rerender requests collapse into one
flag (requesting twice equals requesting once), and over any run of
main-loop ticks that contains no new request, at most one coalesced
restart happens — none when the pending flag is clear — because the
restart itself clears the flag. -/
theorem rerender_coalesce_c9 :
    (∀ a : AsyncState,
        ssd1306_render_async_request_rerender
          (ssd1306_render_async_request_rerender a) =
          ssd1306_render_async_request_rerender a) ∧
    (∀ (pages : Nat) (a : AsyncState) (x : XferState) (envs : List RenderEnv),
        (renderRun pages (a, x) envs).2 ≤
          if a.rerender_pending then 1 else 0) := by
  constructor
  · intro a
    unfold ssd1306_render_async_request_rerender
    split_ifs <;> simp_all
  · intro pages a x envs
    induction envs generalizing a x with
    | nil => simp only [renderRun]; split_ifs <;> omega
    | cons env envs ih =>
        have hstep := render_process_pending pages a x env
        rcases hres : ssd1306_render_async_process pages a x env with
          ⟨⟨a1, x1⟩, restarted⟩
        rw [hres] at hstep
        dsimp only at hstep
        have h2 := ih a1 x1
        rcases hr2 : renderRun pages (a1, x1) envs with ⟨s2, n⟩
        rw [hr2] at h2
        dsimp only at h2
        simp only [renderRun, hres, hr2]
        cases restarted with
        | true =>
            obtain ⟨hpend, hclear⟩ := hstep.1 rfl
            rw [hclear] at h2
            rw [hpend]
            norm_num at h2 ⊢
            omega
        | false =>
            have hkeep := hstep.2 rfl
            rw [hkeep] at h2
            simpa using h2

/-! ## C10 — barrel update vs creation clamping -/

/-- C10: a host update addressed by 'e' to an existing barrel stores
the extracted integer clamped only to the int16 range (so a negative v
is stored negative), clampInt16 is the identity inside that range,
whereas barrel creation clamps a negative initial v up to 0 — host
updates can therefore drive the stored value outside the index domain
creation enforces. -/
theorem barrel_update_clamp_c10 :
    (∀ (st : ProtocolState) (id : Nat) (span : List Char) (v : Int)
        (b : UrBarrelState),
        id < st.element_count →
        ur_barrel_find st.runtime id = some b →
        extract_int_key span (String.toList "v") = some v →
        protocol_numeric_value (handle_update_barrel st id span).2 id =
          clampInt16 v) ∧
    (∀ v : Int, -32768 ≤ v → v ≤ 32767 → clampInt16 v = v) ∧
    (∀ (st : ProtocolState) (ctx : CreateCtx) (v : Int),
        st.element_count < st.element_capacity →
        st.element_capacity ≤ 255 →
        extract_int_key ctx.span (String.toList "v") = some v →
        v < 0 →
        ur_barrel_find st.runtime st.element_count = none →
        st.runtime.head_used + st.runtime.used_tail + sizeof_ur_barrel_node ≤
          UI_ATTR_ARENA_CAP →
        protocol_numeric_value (handle_create_barrel st ctx).2
          st.element_count = 0) := by
  refine ⟨?_, ?_, ?_⟩
  · intro st id span v b hid hfind hv
    simp only [handle_update_barrel, hv, Option.getD_some, numeric_set_value]
    rw [if_neg (by omega)]
    simp only [ur_barrel_get_or_add, hfind, protocol_numeric_value]
    rw [ur_barrel_find_update st.runtime id
      (fun b => { b with value := clampInt16 v }) (fun b => rfl), hfind]
    rfl
  · intro v h1 h2
    unfold clampInt16
    rw [if_neg (by omega), if_neg (by omega)]
  · intro st ctx v hslot hcap hv hneg hfresh hspace
    have hcap0 : ¬ (st.element_capacity = 0) := by omega
    have hid : ¬ (st.element_count = 0xFF) := by omega
    obtain ⟨habe1, habe2, habe3⟩ :=
      add_basic_element_spec st ctx.parent_id ELEMENT_BARREL ctx.x ctx.y
        hcap0 hslot
    unfold handle_create_barrel
    rcases habe : add_basic_element st ctx.parent_id ELEMENT_BARREL
        ctx.x ctx.y with ⟨id, st1⟩
    rw [habe] at habe1 habe2 habe3
    dsimp only at habe1 habe2 habe3 ⊢
    subst habe1
    rw [if_neg hid]
    dsimp only
    simp only [hv, Option.getD_some]
    rw [if_pos hneg]
    unfold numeric_store
    rw [if_neg (by omega)]
    dsimp only
    rw [habe3]
    unfold ur_barrel_get_or_add
    rw [hfresh]
    unfold ur__alloc_tail
    rw [if_neg (by omega)]
    dsimp only
    simp only [protocol_numeric_value, ur_barrel_find, ur_barrel_update,
      updateFirst]
    rw [if_pos (by simp)]
    rw [List.find?_cons_of_pos _ (by simp)]
    norm_num [clampInt16]

/-- Witness for barrel_update_clamp_c10 at a concrete barrel state and
descriptor (update value -5 is stored as -5). -/
theorem barrel_update_clamp_c10_witness :
    (1 < c10State.element_count ∧
      ur_barrel_find c10State.runtime 1 =
        some { element_id := 1, aux := 0, value := 0 } ∧
      extract_int_key (String.toList "\x7b\"e\":1,\"v\":-5\x7d")
        (String.toList "v") = some (-5)) ∧
    protocol_numeric_value
      (handle_update_barrel c10State 1
        (String.toList "\x7b\"e\":1,\"v\":-5\x7d")).2 1 = clampInt16 (-5) :=
  ⟨⟨by decide, by decide, by decide⟩,
    barrel_update_clamp_c10.1 c10State 1
      (String.toList "\x7b\"e\":1,\"v\":-5\x7d") (-5)
      { element_id := 1, aux := 0, value := 0 }
      (by decide) (by decide) (by decide)⟩

/-! ## C1 — arena byte-budget invariant -/

theorem arena_step_strong (st : ProtocolState) (op : ArenaOp)
    (hinv : arenaInvStrong st) (hg : ArenaOpGuard st op) :
    arenaInvStrong (arena_step st op).2 := by
  obtain ⟨h1, h2, h3⟩ := hinv
  unfold arenaInv at h1
  cases op with simp only [ArenaOpGuard] at hg
  | reserve n =>
      unfold arenaInvStrong arenaInv
      simp only [arena_step, protocol_reserve_element_storage]
      split_ifs with hc1 hc2 hc3 <;> simp_all <;> omega
  | appendAttr eid entry =>
      unfold arenaInvStrong arenaInv
      simp only [arena_step, ui_attr_append]
      split_ifs with hc1 hc2 hc3 <;> simp_all <;> omega
  | addElement parent ty x y =>
      unfold arenaInvStrong arenaInv
      simp only [arena_step, add_basic_element, ui_attr_store_position]
      split_ifs with hc1 hc2 <;> simp_all <;> omega
  | allocList eid =>
      unfold arenaInvStrong arenaInv
      simp only [arena_step, ur_list_get_or_add, ur__alloc_tail]
      cases hf : ur_list_find st.runtime eid with
      | some s => simp_all
      | none =>
          simp only [hf]
          split_ifs with hc <;> simp_all <;> omega
  | allocBarrel eid =>
      unfold arenaInvStrong arenaInv
      simp only [arena_step, ur_barrel_get_or_add, ur__alloc_tail]
      cases hf : ur_barrel_find st.runtime eid with
      | some s => simp_all
      | none =>
          simp only [hf]
          split_ifs with hc <;> simp_all <;> omega
  | allocTrigger eid =>
      unfold arenaInvStrong arenaInv
      simp only [arena_step, ur_trigger_get_or_add, ur__alloc_tail]
      cases hf : ur_trigger_find st.runtime eid with
      | some s => simp_all
      | none =>
          simp only [hf]
          split_ifs with hc <;> simp_all <;> omega
  | commit =>
      unfold arenaInvStrong arenaInv
      simp only [arena_step]
      exact ⟨h1, h2, h3⟩
  | headReset =>
      unfold arenaInvStrong arenaInv
      simp only [arena_step, protocol_reset_state, ur_init]
      simp

theorem arena_step_noSpace_frame (st : ProtocolState) (op : ArenaOp)
    (h : (arena_step st op).1 = ArenaStepRes.noSpace) :
    (arena_step st op).2.runtime.head_used = st.runtime.head_used ∧
    (arena_step st op).2.runtime.used_tail = st.runtime.used_tail := by
  cases op with
  | reserve n =>
      simp only [arena_step, protocol_reserve_element_storage] at h ⊢
      split_ifs at h ⊢ <;> simp_all [resToArena]
  | appendAttr eid entry =>
      simp only [arena_step, ui_attr_append] at h ⊢
      split_ifs at h ⊢ <;> simp_all [resToArena]
  | addElement parent ty x y =>
      simp only [arena_step, add_basic_element, ui_attr_store_position] at h ⊢
      split_ifs at h ⊢ <;> simp_all
  | allocList eid =>
      simp only [arena_step] at h ⊢
      cases hf : ur_list_get_or_add st.runtime eid with
      | some p => cases p; simp_all
      | none => simp_all
  | allocBarrel eid =>
      simp only [arena_step] at h ⊢
      cases hf : ur_barrel_get_or_add st.runtime eid with
      | some p => cases p; simp_all
      | none => simp_all
  | allocTrigger eid =>
      simp only [arena_step] at h ⊢
      cases hf : ur_trigger_get_or_add st.runtime eid with
      | some p => cases p; simp_all
      | none => simp_all
  | commit => simp [arena_step] at h
  | headReset => simp [arena_step] at h



/-- C1: the reset state satisfies the arena book-keeping invariant;
along every guarded trace of arena operations head_used + used_tail
stays within the 768-byte capacity; and any single operation that
fails with noSpace leaves head_used and used_tail unchanged. -/
theorem arena_invariant_c1 :
    arenaInvStrong protocol_init ∧
    (∀ (st : ProtocolState) (ops : List ArenaOp),
        arenaInvStrong st → ArenaOpsGuarded st ops →
        arenaInv (arena_run st ops)) ∧
    (∀ (st : ProtocolState) (op : ArenaOp),
        (arena_step st op).1 = ArenaStepRes.noSpace →
        (arena_step st op).2.runtime.head_used = st.runtime.head_used ∧
        (arena_step st op).2.runtime.used_tail = st.runtime.used_tail) := by
  refine ⟨?_, ?_, ?_⟩
  · exact ⟨by unfold arenaInv; decide, by decide, fun h => ⟨rfl, rfl⟩⟩
  · intro st ops hinv hops
    revert hinv
    induction hops with
    | nil st0 => exact fun hinv => hinv.1
    | cons st0 op ops hg hrest ih =>
        intro hinv
        exact ih (arena_step_strong st0 op hinv hg)
  · exact arena_step_noSpace_frame

/-- Witness for arena_invariant_c1 on a concrete guarded trace
(reserve 4 slots, add a screen, allocate its barrel node, commit). -/
theorem arena_invariant_c1_witness :
    (arenaInvStrong protocol_init ∧ ArenaOpsGuarded protocol_init c1Ops) ∧
    arenaInv (arena_run protocol_init c1Ops) :=
  have h1 : arenaInvStrong protocol_init := arena_invariant_c1.1
  have h2 : ArenaOpsGuarded protocol_init c1Ops :=
    ArenaOpsGuarded.cons _ _ _ (by unfold ArenaOpGuard; trivial)
      (ArenaOpsGuarded.cons _ _ _ (by unfold ArenaOpGuard; trivial)
        (ArenaOpsGuarded.cons _ _ _ (by unfold ArenaOpGuard; decide)
          (ArenaOpsGuarded.cons _ _ _ (by unfold ArenaOpGuard; trivial)
            (ArenaOpsGuarded.nil _))))
  ⟨⟨h1, h2⟩, arena_invariant_c1.2.1 protocol_init c1Ops h1 h2⟩

/-! ## C8 — status-dirty last-writer-wins -/

theorem element_changed_run_count (st : ProtocolState) (eids : List Nat) :
    (eids.foldl protocol_element_changed st).element_count =
      st.element_count := by
  induction eids generalizing st with
  | nil => rfl
  | cons e eids ih =>
      simp only [List.foldl_cons]
      rw [ih]
      unfold protocol_element_changed
      split_ifs <;> rfl

/-- C8: protocol_element_changed on a valid id sets the dirty flag and
overwrites the single dirty id (last-writer-wins over any sequence of
changes, as the status payload byte 6 reports), the payload reports the
INVALID sentinel when the flag is clear, and the post-read clearing
resets both the flag and the id. -/
theorem status_dirty_c8 :
    (∀ (st : ProtocolState) (eid : Nat), eid < st.element_count →
        (protocol_element_changed st eid).status_dirty = true ∧
        (protocol_element_changed st eid).status_dirty_id = eid) ∧
    (∀ (st : ProtocolState) (eids : List Nat) (e : Nat),
        e < st.element_count →
        (get_status_payload
            ((eids ++ [e]).foldl protocol_element_changed st)).getD 6 0 = e) ∧
    (∀ st : ProtocolState, st.status_dirty = false →
        (get_status_payload st).getD 6 0 = INVALID_ELEMENT_ID) ∧
    (∀ st : ProtocolState,
        (get_status_clear st).status_dirty = false ∧
        (get_status_clear st).status_dirty_id = INVALID_ELEMENT_ID) := by
  refine ⟨?_, ?_, ?_, ?_⟩
  · intro st eid he
    unfold protocol_element_changed
    rw [if_neg (by omega)]
    exact ⟨rfl, rfl⟩
  · intro st eids e he
    rw [List.foldl_append]
    have hc : (eids.foldl protocol_element_changed st).element_count =
        st.element_count := element_changed_run_count st eids
    simp only [List.foldl_cons, List.foldl_nil]
    generalize hg : eids.foldl protocol_element_changed st = st1 at hc ⊢
    unfold protocol_element_changed
    rw [if_neg (by omega)]
    simp [get_status_payload, List.getD]
  · intro st h
    simp [get_status_payload, List.getD, h, INVALID_ELEMENT_ID]
  · exact fun st => ⟨rfl, rfl⟩

/-- Witness for status_dirty_c8: after changing elements 0 then 1 of
the concrete two-element state, the payload reports dirty id 1; the
fresh state reports the sentinel. -/
theorem status_dirty_c8_witness :
    (1 < c10State.element_count ∧
      (get_status_payload
          (([0] ++ [1]).foldl protocol_element_changed c10State)).getD 6 0 =
        1) ∧
    (c10State.status_dirty = false ∧
      (get_status_payload c10State).getD 6 0 = INVALID_ELEMENT_ID) :=
  ⟨⟨by decide, status_dirty_c8.2.1 c10State [0] 1 (by decide)⟩,
   ⟨by decide, status_dirty_c8.2.2.1 c10State (by decide)⟩⟩

/-! ## C4 — amended ordinal inverse -/

theorem fsGo_mem (st : ProtocolState) (sord s : Nat) (l : List Nat) (k : Nat)
    (hf : find_screen_id_by_ordinal.fsGo st sord l k = s)
    (hne : s ≠ INVALID_ELEMENT_ID) :
    s ∈ l ∧ isBaseScreen st s = true := by
  induction l generalizing k with
  | nil =>
      unfold find_screen_id_by_ordinal.fsGo at hf
      exact absurd hf (by simpa using fun h => hne h.symm)
  | cons i is ih =>
      unfold find_screen_id_by_ordinal.fsGo at hf
      by_cases hb : isBaseScreen st i = true
      · rw [if_pos hb] at hf
        by_cases hk : k = sord
        · rw [if_pos hk] at hf
          subst hf
          exact ⟨List.mem_cons_self i is, hb⟩
        · rw [if_neg hk] at hf
          obtain ⟨hmem, hbs⟩ := ih (k + 1) hf
          exact ⟨List.mem_cons_of_mem i hmem, hbs⟩
      · rw [if_neg hb] at hf
        obtain ⟨hmem, hbs⟩ := ih k hf
        exact ⟨List.mem_cons_of_mem i hmem, hbs⟩

theorem fsGo_foGo (st : ProtocolState) (sord s : Nat) (l : List Nat) (k : Nat)
    (hnd : l.Nodup)
    (hbc : ∀ i ∈ l, isBaseScreen st i = isCountedScreen st i)
    (hf : find_screen_id_by_ordinal.fsGo st sord l k = s)
    (hne : s ≠ INVALID_ELEMENT_ID) :
    find_screen_ordinal_by_id.foGo st s l k = sord := by
  induction l generalizing k with
  | nil =>
      unfold find_screen_id_by_ordinal.fsGo at hf
      exact absurd hf (by simpa using fun h => hne h.symm)
  | cons i is ih =>
      have hnd2 := (List.nodup_cons.mp hnd).2
      have hni := (List.nodup_cons.mp hnd).1
      unfold find_screen_id_by_ordinal.fsGo at hf
      unfold find_screen_ordinal_by_id.foGo
      by_cases hb : isBaseScreen st i = true
      · have hc : isCountedScreen st i = true := (hbc i (List.mem_cons_self i is)) ▸ hb
        rw [if_pos hb] at hf
        rw [if_pos hc]
        by_cases hk : k = sord
        · rw [if_pos hk] at hf
          rw [if_pos hf]
          exact hk
        · rw [if_neg hk] at hf
          have hmem := (fsGo_mem st sord s is (k + 1) hf hne).1
          have his : i ≠ s := fun h => hni (h ▸ hmem)
          rw [if_neg his]
          exact ih (k + 1) hnd2 (fun j hj => hbc j (List.mem_cons_of_mem i hj)) hf
      · have hc : isCountedScreen st i ≠ true := fun h => hb ((hbc i (List.mem_cons_self i is)).symm ▸ h)
        rw [if_neg hb] at hf
        rw [if_neg hc]
        exact ih k hnd2 (fun j hj => hbc j (List.mem_cons_of_mem i hj)) hf

/-- C4 (amended): on trees in which every counted screen (type SCREEN,
overlay role NONE) also has the parent sentinel — i.e. trees without
local non-overlay screens — find_screen_ordinal_by_id inverts
find_screen_id_by_ordinal on every ordinal it resolves. -/
theorem ordinal_inverse_c4 (st : ProtocolState) (ord s : Nat)
    (hbc : ∀ i, i < st.element_count →
        isBaseScreen st i = isCountedScreen st i)
    (hf : find_screen_id_by_ordinal st ord = s)
    (hne : s ≠ INVALID_ELEMENT_ID) :
    find_screen_ordinal_by_id st s = ord := by
  unfold find_screen_id_by_ordinal at hf
  obtain ⟨hmem, hbs⟩ := fsGo_mem st ord s _ 0 hf hne
  have hlt : s < st.element_count := List.mem_range.mp hmem
  have hbs2 : (elemAt st s).type = ELEMENT_SCREEN ∧
      protocol_screen_role st s = OVERLAY_NONE ∧
      (elemAt st s).parent_id = INVALID_ELEMENT_ID := by
    simpa [isBaseScreen] using hbs
  unfold find_screen_ordinal_by_id
  rw [if_neg (by omega)]
  rw [if_neg (by simpa using hbs2.1)]
  rw [if_neg (by simpa using hbs2.2.2)]
  exact fsGo_foGo st ord s (List.range st.element_count) 0
    (List.nodup_range _) (fun i hi => hbc i (List.mem_range.mp hi)) hf hne

/-- Witness for ordinal_inverse_c4: two plain base screens; ordinal 1
resolves to id 1 and back. -/
theorem ordinal_inverse_c4_witness :
    ((∀ i, i < baseOnlyState.element_count →
        isBaseScreen baseOnlyState i = isCountedScreen baseOnlyState i) ∧
      find_screen_id_by_ordinal baseOnlyState 1 = 1 ∧
      (1 : Nat) ≠ INVALID_ELEMENT_ID) ∧
    find_screen_ordinal_by_id baseOnlyState 1 = 1 :=
  ⟨⟨by decide, by decide, by decide⟩,
    ordinal_inverse_c4 baseOnlyState 1 1 (by decide) (by decide) (by decide)⟩

/-! ## C3 — exhaustion during element creation -/

theorem ui_attr_append_noSpace (st : ProtocolState) (eid : Nat)
    (e : AttrEntry) :
    (ui_attr_append st eid e).1 = Res.noSpace →
    ui_attr_append st eid e = (Res.noSpace, st) := by
  simp only [ui_attr_append]
  split_ifs <;> intro h <;> simp_all

theorem ui_attr_append_count (st : ProtocolState) (eid : Nat) (e : AttrEntry) :
    (ui_attr_append st eid e).2.element_count = st.element_count := by
  simp only [ui_attr_append]
  split_ifs <;> rfl

theorem ui_attr_store_text_count (st : ProtocolState) (eid : Nat)
    (text : List Nat) (cap : Nat) :
    (ui_attr_store_text_with_cap st eid text cap).2.element_count =
      st.element_count := by
  simp only [ui_attr_store_text_with_cap, ui_attr_replace, ui_attr_append]
  split
  · split_ifs <;> rfl
  · split_ifs <;> (try rfl) <;> (try split) <;> (try split_ifs) <;>
      first | rfl | (split <;> rfl)

/-- C3 counterexample: with the single element slot already used,
applying a text descriptor returns PARSE_FAIL (not NO_SPACE); and with
the arena nearly full (766 of 768 bytes), applying a text descriptor
returns OK, the element IS created (element_count increments), only its
text attribute is silently missing — the claimed NO_SPACE-and-no-element
behaviour occurs in neither exhaustion case. -/
theorem create_exhaustion_c3_counterexample :
    ((cmd_json c3SlotState descTextA).1 = Res.parseFail ∧
      (cmd_json c3SlotState descTextA).2.1.element_count =
        c3SlotState.element_count) ∧
    ((cmd_json c3ArenaState descTextA).1 = Res.ok ∧
      (cmd_json c3ArenaState descTextA).2.1.element_count =
        c3ArenaState.element_count + 1 ∧
      ui_attr_get_text (cmd_json c3ArenaState descTextA).2.1
        c3ArenaState.element_count = none) := by
  decide

/-- C3 (amended): exhaustion during element creation is reported and
contained as follows.  (1) With the element slots exhausted,
handle_create_text fails with PARSE_FAIL and the state is unchanged —
no element is created, but the wire code is PARSE_FAIL, not NO_SPACE.
(2) The inner text store does fail with NO_SPACE and changes nothing
when appending the text attribute would overflow the arena.  (3) But
whenever a slot is available, handle_create_text returns OK and creates
the element regardless of the arena level, because it discards the
result of the text store. -/
theorem create_exhaustion_c3 :
    (∀ (st : ProtocolState) (ctx : CreateCtx),
        st.element_count ≥ st.element_capacity →
        handle_create_text st ctx = (Res.parseFail, st)) ∧
    (∀ (st : ProtocolState) (eid : Nat) (text : List Nat) (cap : Nat),
        ui_attr_find st eid UI_ATTR_TAG_TEXT = none →
        (ui_attr_append st eid
            (AttrEntry.text eid
              ((if cap ≠ 0 then cap else text.length) + 1)
              (List.replicate ((if cap ≠ 0 then cap else text.length) + 1) 0))).1 =
          Res.noSpace →
        ui_attr_store_text_with_cap st eid text cap = (Res.noSpace, st)) ∧
    (∀ (st : ProtocolState) (ctx : CreateCtx),
        ctx.parent_id = INVALID_ELEMENT_ID →
        st.element_capacity ≤ 255 →
        st.element_count < st.element_capacity →
        (handle_create_text st ctx).1 = Res.ok ∧
        (handle_create_text st ctx).2.element_count =
          st.element_count + 1) := by
  refine ⟨?_, ?_, ?_⟩
  · intro st ctx hfull
    unfold handle_create_text add_basic_element
    by_cases hc0 : st.element_capacity = 0
    · simp only [if_pos hc0]
      split_ifs <;> rfl
    · simp only [if_neg hc0, if_pos hfull]
      split_ifs <;> rfl
  · intro st eid text cap hfind happ
    have := ui_attr_append_noSpace st eid _ happ
    unfold ui_attr_store_text_with_cap
    rw [hfind]
    dsimp only
    rw [this]
    rfl
  · intro st ctx hp hcap hslot
    have hcap0 : st.element_capacity ≠ 0 := by omega
    have hid : ¬ (st.element_count = 0xFF) := by omega
    obtain ⟨habe1, habe2, _⟩ :=
      add_basic_element_spec st ctx.parent_id ELEMENT_TEXT ctx.x ctx.y
        hcap0 hslot
    unfold handle_create_text
    rw [if_neg (by simp [hp])]
    rcases habe : add_basic_element st ctx.parent_id ELEMENT_TEXT
        ctx.x ctx.y with ⟨id, st1⟩
    rw [habe] at habe1 habe2
    dsimp only at habe1 habe2 ⊢
    subst habe1
    rw [if_neg hid]
    rw [if_neg (by simp [hp])]
    refine ⟨rfl, ?_⟩
    rw [ui_attr_store_text_count]
    omega

/-- Witness for create_exhaustion_c3: the slot-exhausted single-capacity
state and a fresh two-capacity state with a plain text descriptor. -/
theorem create_exhaustion_c3_witness :
    (c3SlotState.element_count ≥ c3SlotState.element_capacity ∧
      handle_create_text c3SlotState
        { parent_id := INVALID_ELEMENT_ID, x := 0, y := 0, span := [] } =
        (Res.parseFail, c3SlotState)) ∧
    ((INVALID_ELEMENT_ID : Nat) = INVALID_ELEMENT_ID ∧
      c3ArenaState.element_capacity ≤ 255 ∧
      c3ArenaState.element_count < c3ArenaState.element_capacity ∧
      (handle_create_text c3ArenaState
          { parent_id := INVALID_ELEMENT_ID, x := 0, y := 0, span := [] }).1 =
        Res.ok ∧
      (handle_create_text c3ArenaState
          { parent_id := INVALID_ELEMENT_ID, x := 0, y := 0, span := [] }).2.element_count =
        c3ArenaState.element_count + 1) :=
  ⟨⟨by decide,
    create_exhaustion_c3.1 c3SlotState
      { parent_id := INVALID_ELEMENT_ID, x := 0, y := 0, span := [] }
      (by decide)⟩,
   ⟨rfl, by decide, by decide,
    (create_exhaustion_c3.2.2 c3ArenaState
        { parent_id := INVALID_ELEMENT_ID, x := 0, y := 0, span := [] }
        rfl (by decide) (by decide)).1,
    (create_exhaustion_c3.2.2 c3ArenaState
        { parent_id := INVALID_ELEMENT_ID, x := 0, y := 0, span := [] }
        rfl (by decide) (by decide)).2⟩⟩

/-! ## C5 — local-screen push -/

theorem nav_update_als_active (st : ProtocolState) :
    (nav_update_active_local_screen st).active_screen = st.active_screen ∧
    (nav_update_active_local_screen st).focused_element =
      st.focused_element ∧
    (nav_update_active_local_screen st).scroll_x = st.scroll_x := by
  simp only [nav_update_active_local_screen]
  split_ifs <;> exact ⟨rfl, rfl, rfl⟩

theorem set_focus_active (st : ProtocolState) (e : Nat) :
    (protocol_set_focus st e).active_screen = st.active_screen ∧
    (protocol_set_focus st e).scroll_x = st.scroll_x := by
  unfold protocol_set_focus
  split_ifs <;> exact ⟨rfl, rfl⟩

theorem focus_first_under_active (st : ProtocolState) (o : Nat) :
    (protocol_focus_first_under st o).active_screen = st.active_screen ∧
    (protocol_focus_first_under st o).scroll_x = st.scroll_x := by
  unfold protocol_focus_first_under
  cases (List.range st.element_count).find?
      (fun i => protocol_is_element_visible st i &&
        (i == o || is_descendant_of st i o) && element_focusable st i) with
  | some i => exact set_focus_active st i
  | none => exact ⟨rfl, rfl⟩

theorem nav_push_tail_frame (stx : ProtocolState) (pl sid : Nat)
    (a : Nat) (z : Int)
    (ha : stx.active_screen = a) (hz : stx.scroll_x = z) :
    (if (protocol_focus_first_under (nav_update_active_local_screen stx)
          sid).focused_element = INVALID_ELEMENT_ID then
        protocol_set_focus
          (protocol_focus_first_under (nav_update_active_local_screen stx)
            sid) pl
      else
        protocol_focus_first_under (nav_update_active_local_screen stx)
          sid).active_screen = a ∧
    (if (protocol_focus_first_under (nav_update_active_local_screen stx)
          sid).focused_element = INVALID_ELEMENT_ID then
        protocol_set_focus
          (protocol_focus_first_under (nav_update_active_local_screen stx)
            sid) pl
      else
        protocol_focus_first_under (nav_update_active_local_screen stx)
          sid).scroll_x = z := by
  subst ha
  subst hz
  have h4 := nav_update_als_active stx
  have h5 := focus_first_under_active (nav_update_active_local_screen stx) sid
  by_cases hfe : (protocol_focus_first_under
      (nav_update_active_local_screen stx) sid).focused_element =
      INVALID_ELEMENT_ID
  · rw [if_pos hfe]
    have h6 := set_focus_active (protocol_focus_first_under
      (nav_update_active_local_screen stx) sid) pl
    exact ⟨h6.1.trans (h5.1.trans h4.1),
           h6.2.trans (h5.2.trans h4.2.2)⟩
  · rw [if_neg hfe]
    exact ⟨h5.1.trans h4.1, h5.2.trans h4.2.2⟩

/-- C5 counterexample: pushing the local screen 3 (a SCREEN parented to
text 2) from list 1 reports success but leaves the active ordinal at 0
and ends with NO focused element — neither the ordinal switch nor the
claimed parent-list refocus happens. -/
theorem push_local_screen_c5_counterexample :
    screen_is_local cex5State 3 = true ∧
    find_screen_ordinal_by_id cex5State 3 = INVALID_ELEMENT_ID ∧
    (nav_push_local_screen cex5State 1 3).1 = 1 ∧
    (nav_push_local_screen cex5State 1 3).2.active_screen =
      cex5State.active_screen ∧
    (nav_push_local_screen cex5State 1 3).2.focused_element =
      INVALID_ELEMENT_ID ∧
    (nav_push_local_screen cex5State 1 3).2.focused_element ≠ 1 := by
  decide

/-- C5 (amended): for every screen with a non-sentinel parent (every
local screen in particular), find_screen_ordinal_by_id returns the
INVALID sentinel, so nav_push_local_screen never re-points the active
base-screen ordinal or the scroll; the first visible focusable element
at or under the pushed screen is focused when the scan finds one; and
the parent-list refocus fallback is protocol_set_focus, a no-op
whenever the parent list is not visible in the pushed context. -/
theorem push_local_screen_c5 :
    (∀ (st : ProtocolState) (sid : Nat),
        (elemAt st sid).parent_id ≠ INVALID_ELEMENT_ID →
        find_screen_ordinal_by_id st sid = INVALID_ELEMENT_ID) ∧
    (∀ (st : ProtocolState) (pl sid : Nat),
        (elemAt st sid).parent_id ≠ INVALID_ELEMENT_ID →
        (nav_push_local_screen st pl sid).2.active_screen =
          st.active_screen ∧
        (nav_push_local_screen st pl sid).2.scroll_x = st.scroll_x) ∧
    (∀ (st : ProtocolState) (o i : Nat),
        (List.range st.element_count).find?
            (fun j => protocol_is_element_visible st j &&
              (j == o || is_descendant_of st j o) &&
              element_focusable st j) = some i →
        (protocol_focus_first_under st o).focused_element = i) ∧
    (∀ (st : ProtocolState) (e : Nat),
        protocol_is_element_visible st e = false →
        protocol_set_focus st e = st) := by
  refine ⟨?_, ?_, ?_, ?_⟩
  · intro st sid hpar
    unfold find_screen_ordinal_by_id
    split_ifs <;> first | rfl | simp_all
  · intro st pl sid hpar
    unfold nav_push_local_screen
    split_ifs with hd
    · exact ⟨rfl, rfl⟩
    · cases hga : ur_list_get_or_add st.runtime pl with
      | none => exact ⟨rfl, rfl⟩
      | some p =>
          cases p with
          | mk rt1 pstate =>
              dsimp only
              have hno : ∀ (rt : UiRuntime) (ns : List NavStackEntry),
                  find_screen_ordinal_by_id
                    { st with runtime := rt, nav_stack := ns } sid =
                    INVALID_ELEMENT_ID := by
                intro rt ns
                have he : elemAt { st with runtime := rt, nav_stack := ns }
                    sid = elemAt st sid := rfl
                unfold find_screen_ordinal_by_id
                split_ifs <;> first | rfl | simp_all [he]
              rw [hno]
              rw [if_neg
                (show ¬ (INVALID_ELEMENT_ID ≠ INVALID_ELEMENT_ID) from
                  by simp)]
              exact nav_push_tail_frame _ pl sid st.active_screen
                st.scroll_x rfl rfl
  · intro st o i hf
    unfold protocol_focus_first_under
    rw [hf]
    dsimp only
    have hmem : i ∈ List.range st.element_count := List.mem_of_find?_eq_some hf
    have hlt : i < st.element_count := List.mem_range.mp hmem
    have hp := List.find?_some hf
    have hvis : protocol_is_element_visible st i = true := by
      simp only [Bool.and_eq_true] at hp
      exact hp.1.1
    have hfoc : element_focusable st i = true := by
      simp only [Bool.and_eq_true] at hp
      exact hp.2
    unfold protocol_set_focus
    rw [if_neg (by omega), if_neg (by simp [hvis]), if_neg (by simp [hfoc])]
  · intro st e hv
    unfold protocol_set_focus
    split_ifs with h1 h2 <;> first | rfl | simp_all

/-- Witness for push_local_screen_c5 at the concrete local-screen tree:
screen 3 has parent text 2, so its ordinal is INVALID, the push leaves
the ordinal and scroll alone, and set_focus on the now-invisible list
1 after the push is a no-op. -/
theorem push_local_screen_c5_witness :
    ((elemAt cex5State 3).parent_id ≠ INVALID_ELEMENT_ID ∧
      find_screen_ordinal_by_id cex5State 3 = INVALID_ELEMENT_ID ∧
      (nav_push_local_screen cex5State 1 3).2.active_screen =
        cex5State.active_screen) ∧
    (protocol_is_element_visible (nav_push_local_screen cex5State 1 3).2 1 =
        false ∧
      protocol_set_focus (nav_push_local_screen cex5State 1 3).2 1 =
        (nav_push_local_screen cex5State 1 3).2) :=
  ⟨⟨by decide, push_local_screen_c5.1 cex5State 3 (by decide),
    (push_local_screen_c5.2.1 cex5State 1 3 (by decide)).1⟩,
   ⟨by decide,
    push_local_screen_c5.2.2.2 (nav_push_local_screen cex5State 1 3).2 1
      (by decide)⟩⟩

/-! ## C6 — navigation push/pop -/

theorem set_focus_frame (st : ProtocolState) (e : Nat) :
    (protocol_set_focus st e).nav_depth = st.nav_depth ∧
    (protocol_set_focus st e).nav_stack = st.nav_stack ∧
    (protocol_set_focus st e).runtime = st.runtime ∧
    (protocol_set_focus st e).active_screen = st.active_screen ∧
    (protocol_set_focus st e).scroll_x = st.scroll_x := by
  unfold protocol_set_focus
  split_ifs <;> exact ⟨rfl, rfl, rfl, rfl, rfl⟩

theorem set_focus_focused (st : ProtocolState) (e f0 : Nat)
    (hf : st.focused_element = f0) :
    (protocol_set_focus st e).focused_element = e ∨
    (protocol_set_focus st e).focused_element = f0 := by
  subst hf
  unfold protocol_set_focus
  split_ifs <;> first | exact Or.inl rfl | exact Or.inr rfl

theorem nav_update_frame (st : ProtocolState) :
    (nav_update_active_local_screen st).nav_depth = st.nav_depth ∧
    (nav_update_active_local_screen st).nav_stack = st.nav_stack ∧
    (nav_update_active_local_screen st).runtime = st.runtime ∧
    (nav_update_active_local_screen st).active_screen = st.active_screen ∧
    (nav_update_active_local_screen st).scroll_x = st.scroll_x ∧
    (nav_update_active_local_screen st).focused_element =
      st.focused_element := by
  simp only [nav_update_active_local_screen]
  split_ifs <;> exact ⟨rfl, rfl, rfl, rfl, rfl, rfl⟩

theorem getD_set_self {A : Type} (l : List A) (n : Nat) (a d : A)
    (h : n < l.length) : (l.set n a).getD n d = a := by
  induction l generalizing n with
  | nil => simp at h
  | cons x xs ih =>
      cases n with
      | zero => rfl
      | succ m =>
          simp only [List.set_cons_succ, List.getD_cons_succ]
          exact ih m (by simpa using h)

/-- The state produced by a successful nav_push_list, spelled out. -/
theorem nav_push_list_eq (st : ProtocolState) (pl tl : Nat)
    (rt1 rt2 : UiRuntime) (ps cs : UrListState)
    (hd : st.nav_depth < NAV_STACK_MAX_DEPTH)
    (hga1 : ur_list_get_or_add st.runtime pl = some (rt1, ps))
    (hga2 : ur_list_get_or_add rt1 tl = some (rt2, cs)) :
    (nav_push_list st pl tl).2 =
      protocol_set_focus
        (nav_update_active_local_screen
          { st with
              runtime := ur_list_update rt2 tl (fun c =>
                { c with cursor := 0, top_index := 0, anim_active := 0,
                         anim_pix := 0, anim_dir := 0 }),
              nav_stack := st.nav_stack.set st.nav_depth
                { type := NAV_CTX_LIST, target_element := tl,
                  return_list := pl, saved_cursor := ps.cursor,
                  saved_top := ps.top_index,
                  saved_focus := st.focused_element,
                  saved_active_screen := st.active_screen },
              nav_depth := st.nav_depth + 1 }) tl := by
  unfold nav_push_list
  rw [if_neg (by omega), hga1]
  dsimp only
  rw [hga2]

/-- C6 counterexample: pushing list 3 from list 1 while trigger 4 is
focused snapshots saved_focus = 4, but the matching pop focuses the
return list (1), not the saved focus — the pop does NOT restore the
focused element exactly. -/
theorem nav_push_pop_c6_counterexample :
    cex6State.focused_element = 4 ∧
    ((nav_push_list cex6State 1 3).2.nav_stack.getD 0
        navStackDefault).saved_focus = 4 ∧
    (nav_pop (nav_push_list cex6State 1 3).2).2.focused_element = 1 ∧
    (nav_pop (nav_push_list cex6State 1 3).2).2.focused_element ≠ 4 := by
  decide

/-- C6 (amended): a push at full depth fails silently and changes
nothing; after a successful list push, the matching pop exactly
restores the stack depth, the active screen ordinal, the scroll and
the return list's cursor and top_index to the values snapshotted at
the push — but it focuses the return list (or leaves the pushed
context's focus) rather than restoring the snapshotted focus. -/
theorem nav_push_pop_c6 :
    (∀ (st : ProtocolState) (pl tl : Nat),
        st.nav_depth ≥ NAV_STACK_MAX_DEPTH →
        nav_push_list st pl tl = (0, st)) ∧
    (∀ (st : ProtocolState) (pl tl : Nat) (rt1 rt2 : UiRuntime)
        (ps cs : UrListState),
        st.nav_depth < NAV_STACK_MAX_DEPTH →
        st.nav_stack.length = NAV_STACK_MAX_DEPTH →
        pl ≠ tl →
        pl ≠ INVALID_ELEMENT_ID →
        ur_list_get_or_add st.runtime pl = some (rt1, ps) →
        ur_list_get_or_add rt1 tl = some (rt2, cs) →
        (nav_pop (nav_push_list st pl tl).2).2.nav_depth = st.nav_depth ∧
        (nav_pop (nav_push_list st pl tl).2).2.active_screen =
          st.active_screen ∧
        (nav_pop (nav_push_list st pl tl).2).2.scroll_x = st.scroll_x ∧
        (∃ ls, ur_list_find
            (nav_pop (nav_push_list st pl tl).2).2.runtime pl = some ls ∧
          ls.cursor = ps.cursor ∧ ls.top_index = ps.top_index) ∧
        ((nav_pop (nav_push_list st pl tl).2).2.focused_element = pl ∨
          (nav_pop (nav_push_list st pl tl).2).2.focused_element =
            (nav_push_list st pl tl).2.focused_element)) := by
  constructor
  · intro st pl tl hd
    unfold nav_push_list
    rw [if_pos hd]
  · intro st pl tl rt1 rt2 ps cs hd hlen hpltl hpl hga1 hga2
    have hpush := nav_push_list_eq st pl tl rt1 rt2 ps cs hd hga1 hga2
    -- the pushed runtime still finds the parent list snapshot state
    have hspec1 := ur_list_get_or_add_spec st.runtime pl rt1 ps hga1
    have hspec2 := ur_list_get_or_add_spec rt1 tl rt2 cs hga2
    have hfind2 : ur_list_find rt2 pl = some ps :=
      (hspec2.2.2.2.2 pl hpltl).trans hspec1.1
    have hfind3 : ur_list_find
        (ur_list_update rt2 tl (fun c =>
          { c with cursor := 0, top_index := 0, anim_active := 0,
                   anim_pix := 0, anim_dir := 0 })) pl = some ps := by
      rw [ur_list_find_update_ne rt2 tl pl hpltl (fun c => { c with cursor := 0, top_index := 0, anim_active := 0, anim_pix := 0, anim_dir := 0 }) (fun s => rfl)]
      exact hfind2
    -- name the pushed state and record its fields
    rw [hpush]
    generalize hX :
      protocol_set_focus
        (nav_update_active_local_screen
          { st with
              runtime := ur_list_update rt2 tl (fun c =>
                { c with cursor := 0, top_index := 0, anim_active := 0,
                         anim_pix := 0, anim_dir := 0 }),
              nav_stack := st.nav_stack.set st.nav_depth
                { type := NAV_CTX_LIST, target_element := tl,
                  return_list := pl, saved_cursor := ps.cursor,
                  saved_top := ps.top_index,
                  saved_focus := st.focused_element,
                  saved_active_screen := st.active_screen },
              nav_depth := st.nav_depth + 1 }) tl = X
    have hXd : X.nav_depth = st.nav_depth + 1 := by
      rw [← hX]
      rw [(set_focus_frame _ _).1, (nav_update_frame _).1]
    have hXs : X.nav_stack = st.nav_stack.set st.nav_depth
        { type := NAV_CTX_LIST, target_element := tl,
          return_list := pl, saved_cursor := ps.cursor,
          saved_top := ps.top_index,
          saved_focus := st.focused_element,
          saved_active_screen := st.active_screen } := by
      rw [← hX]
      rw [(set_focus_frame _ _).2.1, (nav_update_frame _).2.1]
    have hXr : X.runtime = ur_list_update rt2 tl (fun c =>
        { c with cursor := 0, top_index := 0, anim_active := 0,
                 anim_pix := 0, anim_dir := 0 }) := by
      rw [← hX]
      rw [(set_focus_frame _ _).2.2.1, (nav_update_frame _).2.2.1]
    have hXa : X.active_screen = st.active_screen := by
      rw [← hX]
      rw [(set_focus_frame _ _).2.2.2.1, (nav_update_frame _).2.2.2.1]
    have hXz : X.scroll_x = st.scroll_x := by
      rw [← hX]
      rw [(set_focus_frame _ _).2.2.2.2, (nav_update_frame _).2.2.2.2.1]
    -- evaluate the pop
    unfold nav_pop
    rw [if_neg (by omega)]
    rw [if_neg (by omega)]
    rw [hXd]
    simp only [Nat.add_sub_cancel]
    have hentry : X.nav_stack.getD st.nav_depth navStackDefault =
        { type := NAV_CTX_LIST, target_element := tl, return_list := pl,
          saved_cursor := ps.cursor, saved_top := ps.top_index,
          saved_focus := st.focused_element,
          saved_active_screen := st.active_screen } := by
      rw [hXs]
      exact getD_set_self _ _ _ _ (by omega)
    rw [hentry]
    dsimp only
    rw [if_pos (show (pl : Nat) ≠ INVALID_ELEMENT_ID from hpl),
        if_pos (show (pl : Nat) ≠ INVALID_ELEMENT_ID from hpl)]
    rw [if_neg (show ¬ (NAV_CTX_LIST = NAV_CTX_LOCAL_SCREEN) from by decide)]
    generalize hY :
      nav_update_active_local_screen
        { X with nav_depth := st.nav_depth } = Y
    have hYd : Y.nav_depth = st.nav_depth := by
      rw [← hY, (nav_update_frame _).1]
    have hYr : Y.runtime = X.runtime := by
      rw [← hY, (nav_update_frame _).2.2.1]
    have hYa : Y.active_screen = st.active_screen := by
      rw [← hY, (nav_update_frame _).2.2.2.1]
      exact hXa
    have hYz : Y.scroll_x = st.scroll_x := by
      rw [← hY, (nav_update_frame _).2.2.2.2.1]
      exact hXz
    have hYf : Y.focused_element = X.focused_element := by
      rw [← hY, (nav_update_frame _).2.2.2.2.2]
    rw [hYr, hXr]
    unfold ur_list_get_or_add
    rw [hfind3]
    dsimp only
    refine ⟨?_, ?_, ?_, ?_, ?_⟩
    · rw [(set_focus_frame _ _).1]
      exact hYd
    · rw [(set_focus_frame _ _).2.2.2.1]
      exact hYa
    · rw [(set_focus_frame _ _).2.2.2.2]
      exact hYz
    · refine ⟨{ ps with cursor := ps.cursor, top_index := ps.top_index, anim_active := 0, anim_pix := 0, anim_dir := 0 }, ?_, rfl, rfl⟩
      rw [(set_focus_frame _ _).2.2.1]
      show ur_list_find (ur_list_update (ur_list_update rt2 tl (fun c => { c with cursor := 0, top_index := 0, anim_active := 0, anim_pix := 0, anim_dir := 0 })) pl (fun p => { p with cursor := ps.cursor, top_index := ps.top_index, anim_active := 0, anim_pix := 0, anim_dir := 0 })) pl = _
      rw [ur_list_find_update (ur_list_update rt2 tl (fun c => { c with cursor := 0, top_index := 0, anim_active := 0, anim_pix := 0, anim_dir := 0 })) pl (fun p => { p with cursor := ps.cursor, top_index := ps.top_index, anim_active := 0, anim_pix := 0, anim_dir := 0 }) (fun s => rfl)]
      rw [hfind3]
      rfl
    · exact set_focus_focused _ pl X.focused_element hYf



/-- Witness for nav_push_pop_c6: the concrete push/pop pair on
cex6State (list 1, nested list 3) and a silent failure at depth 4. -/
theorem nav_push_pop_c6_witness :
    (cex6State.nav_depth < NAV_STACK_MAX_DEPTH ∧
      cex6State.nav_stack.length = NAV_STACK_MAX_DEPTH ∧
      (1 : Nat) ≠ 3 ∧ (1 : Nat) ≠ INVALID_ELEMENT_ID ∧
      ur_list_get_or_add cex6State.runtime 1 = some (c6rt1, c6ps) ∧
      ur_list_get_or_add c6rt1 3 = some (c6rt2, c6cs)) ∧
    (nav_pop (nav_push_list cex6State 1 3).2).2.nav_depth =
      cex6State.nav_depth ∧
    ({ cex6State with nav_depth := 4 }.nav_depth ≥ NAV_STACK_MAX_DEPTH ∧
      nav_push_list { cex6State with nav_depth := 4 } 1 3 =
        (0, { cex6State with nav_depth := 4 })) :=
  ⟨⟨by decide, by decide, by decide, by decide, by decide, by decide⟩,
   (nav_push_pop_c6.2 cex6State 1 3 c6rt1 c6rt2 c6ps c6cs (by decide)
      (by decide) (by decide) (by decide) (by decide) (by decide)).1,
   ⟨by decide,
    nav_push_pop_c6.1 { cex6State with nav_depth := 4 } 1 3 (by decide)⟩⟩

/-! ## C7 — COBS roundtrip -/

theorem cobsSpecAux_length (inp : List Nat) : ∀ D : List Nat,
    (cobsSpecAux D inp).length = D.length + 1 + inp.length := by
  induction inp with
  | nil => intro D; simp [cobsSpecAux]
  | cons b rest ih =>
      intro D
      by_cases hb : b = 0
      · subst hb
        simp only [cobsSpecAux, if_pos rfl]
        simp [ih]
        omega
      · simp only [cobsSpecAux, if_neg hb]
        simp [ih]
        omega

theorem set_append_cons {A : Type} (P : List A) (x c : A) (D : List A) :
    (P ++ x :: D).set P.length c = P ++ c :: D := by
  induction P with
  | nil => rfl
  | cons p ps ih => simp [List.set_cons_succ, ih]

theorem cobsEncodeLoop_spec (inp : List Nat) : ∀ (P D : List Nat) (omax : Nat),
    D.length + 1 + inp.length ≤ 254 →
    P.length + 1 + D.length + inp.length ≤ omax →
    cobsEncodeLoop inp (P ++ 0 :: D) P.length (D.length + 1) omax =
      some (P ++ cobsSpecAux D inp) := by
  induction inp with
  | nil =>
      intro P D omax hblk hmax
      simp only [cobsEncodeLoop, cobsSpecAux]
      rw [set_append_cons]
  | cons b rest ih =>
      intro P D omax hblk hmax
      simp only [List.length_cons] at hblk hmax
      by_cases hb : b = 0
      · subst hb
        simp only [cobsEncodeLoop, if_true]
        rw [set_append_cons]
        split_ifs with hov
        · exfalso
          simp at hov
          omega
        · convert ih (P ++ (D.length + 1) :: D) [] omax
            (by simp; omega) (by simp; omega) using 2 <;>
            simp [cobsSpecAux]
      · simp only [cobsEncodeLoop]
        rw [if_neg hb]
        split_ifs with h1 h2 h3
        · exfalso
          simp at h1
          omega
        · exfalso
          omega
        · exfalso
          omega
        · convert ih P (D ++ [b]) omax (by simp; omega) (by simp; omega)
            using 2 <;> simp [cobsSpecAux, hb]

theorem cobsDecodeCopy_spec (D : List Nat) : ∀ (rest A : List Nat)
    (omax : Nat), A.length + D.length ≤ omax →
    cobsDecodeCopy D.length (D ++ rest) A omax = some (A ++ D, rest) := by
  induction D with
  | nil => intro rest A omax h; simp [cobsDecodeCopy]
  | cons d ds ih =>
      intro rest A omax h
      simp only [List.length_cons, List.cons_append, cobsDecodeCopy]
      rw [if_neg (by simp at h ⊢; omega)]
      have := ih rest (A ++ [d]) omax (by simp at h ⊢; omega)
      simpa using this

theorem cobsDecodeLoop_spec (inp : List Nat) : ∀ (D A : List Nat)
    (fuel omax : Nat),
    D.length + 1 + inp.length ≤ 254 →
    A.length + D.length + inp.length ≤ omax →
    (cobsSpecAux D inp).length ≤ fuel →
    cobsDecodeLoop fuel (cobsSpecAux D inp) A omax =
      some (A ++ D ++ inp) := by
  induction inp with
  | nil =>
      intro D A fuel omax hblk hmax hfuel
      rw [cobsSpecAux_length] at hfuel
      simp only [List.length_nil] at hfuel hmax hblk
      cases fuel with
      | zero => omega
      | succ f =>
          simp only [cobsSpecAux, cobsDecodeLoop]
          rw [if_neg (by omega)]
          rw [show D.length + 1 - 1 = D.length from by omega]
          rw [show cobsDecodeCopy D.length D A omax =
              cobsDecodeCopy D.length (D ++ []) A omax from by simp]
          rw [cobsDecodeCopy_spec D [] A omax (by omega)]
          dsimp only
          rw [if_neg (by simp)]
          simp [cobsDecodeLoop]
  | cons b rest ih =>
      intro D A fuel omax hblk hmax hfuel
      rw [cobsSpecAux_length] at hfuel
      simp only [List.length_cons] at hblk hmax hfuel
      by_cases hb : b = 0
      · subst hb
        cases fuel with
        | zero => omega
        | succ f =>
            rw [show cobsSpecAux D (0 :: rest) =
              (D.length + 1) :: (D ++ cobsSpecAux [] rest) from by
                simp [cobsSpecAux]]
            simp only [cobsDecodeLoop]
            rw [if_neg (by omega)]
            rw [show D.length + 1 - 1 = D.length from by omega]
            rw [cobsDecodeCopy_spec D (cobsSpecAux [] rest) A omax (by omega)]
            dsimp only
            have hne : cobsSpecAux [] rest ≠ [] := by
              intro h
              have hlen2 := cobsSpecAux_length rest []
              rw [h] at hlen2
              simp only [List.length_nil] at hlen2
              omega
            rw [if_pos ⟨hne, by omega⟩]
            rw [if_neg (by simp only [List.length_append]; omega)]
            have hstep := ih [] ((A ++ D) ++ [0]) f omax
              (by simp only [List.length_nil]; omega)
              (by simp only [List.length_append, List.length_cons,
                    List.length_nil]
                  omega)
              (by rw [cobsSpecAux_length]
                  simp only [List.length_nil]
                  omega)
            rw [hstep]
            simp
      · rw [show cobsSpecAux D (b :: rest) = cobsSpecAux (D ++ [b]) rest from
          by simp only [cobsSpecAux]; rw [if_neg hb]]
        have hstep := ih (D ++ [b]) A fuel omax
          (by simp only [List.length_append, List.length_cons,
                List.length_nil]
              omega)
          (by simp only [List.length_append, List.length_cons,
                List.length_nil]
              omega)
          (by rw [cobsSpecAux_length]
              simp only [List.length_append, List.length_cons,
                List.length_nil]
              omega)
        rw [hstep]
        simp

/-- C7: for every byte sequence of at most 111 bytes and output
buffers of at least length + 1 bytes, the encoder succeeds and the
decoder returns exactly the original sequence. -/
theorem cobs_roundtrip_c7 (inp : List Nat) (omax1 omax2 : Nat)
    (hlen : inp.length ≤ 111)
    (h1 : inp.length + 1 ≤ omax1)
    (h2 : inp.length + 1 ≤ omax2) :
    ∃ enc, cobs_encode inp omax1 = some enc ∧
      enc.length = inp.length + 1 ∧
      cobs_decode enc omax2 = some inp := by
  refine ⟨cobsSpecAux [] inp, ?_, ?_, ?_⟩
  · unfold cobs_encode
    rw [if_neg (by omega)]
    have := cobsEncodeLoop_spec inp [] [] omax1 (by simp; omega)
      (by simp; omega)
    simpa using this
  · rw [cobsSpecAux_length]
    simp only [List.length_nil]
    omega
  · unfold cobs_decode
    have := cobsDecodeLoop_spec inp [] [] (cobsSpecAux [] inp).length omax2
      (by simp; omega)
      (by simp; omega)
      (le_refl _)
    simpa using this

/-- Witness for cobs_roundtrip_c7 on the payload [0, 1, 0, 0] with the
buffer sizes the firmware uses (61 for encode, 64 for decode). -/
theorem cobs_roundtrip_c7_witness :
    (([0, 1, 0, 0] : List Nat).length ≤ 111 ∧
      ([0, 1, 0, 0] : List Nat).length + 1 ≤ 61 ∧
      ([0, 1, 0, 0] : List Nat).length + 1 ≤ 64) ∧
    (∃ enc, cobs_encode [0, 1, 0, 0] 61 = some enc ∧
      enc.length = ([0, 1, 0, 0] : List Nat).length + 1 ∧
      cobs_decode enc 64 = some [0, 1, 0, 0]) :=
  ⟨⟨by decide, by decide, by decide⟩,
   cobs_roundtrip_c7 [0, 1, 0, 0] 61 64 (by decide) (by decide) (by decide)⟩

end JsonGui
